import Mathlib

/-!
Verification of the SafeZone check-in and rescue engine.

The definitions below are a shallow embedding of the Node.js engine
(`src/frontend/script.js`, the SafeZone backend part): sessions, the
per-user timer table, the escalation state machine and the REST
operations.  Timers are modelled explicitly: `live` is the multiset of
scheduled callbacks still pending (a JS `setTimeout`/`setInterval` keeps
running even when the handle stored in the `timers` map is overwritten),
`slots` is the per-user map from a slot name to the handle the engine
would pass to `clearTimeout`.  `fireNext` runs the pending timer with the
least deadline, as the event loop does.  A second, independent embedding
at the end models the prototype backend (`src/backend/server.js`).
-/

namespace SafeZone

/-- `name`/`phone` pair of an emergency contact. -/
structure Contact where
  name : String
  phone : String
deriving Repr, DecidableEq

/-- `lastLocation` record: coordinates, address, optional update stamp. -/
structure Location where
  lat : Rat
  lng : Rat
  address : String
  updatedAt : Option Nat
deriving Repr, DecidableEq

/-- One entry of the per-user activity log (`addLog`). -/
structure LogEntry where
  id : Nat
  type : String
  message : String
  ts : Nat
deriving Repr, DecidableEq

/-- `stats` of a session; `pending` is a gauge kept at `max 0` on decrement. -/
structure Stats where
  totalCheckins : Nat
  missedCheckins : Nat
  rescueDispatches : Nat
  pending : Int
deriving Repr, DecidableEq

/-- `currentCheckin`: the in-flight check-in cycle. -/
structure Checkin where
  id : Nat
  startedAt : Nat
  responded : Bool
  respondedAt : Option Nat
  ivrRound : Nat
  missedCalls : Nat
deriving Repr, DecidableEq

/-- `status` field of an incident. -/
inductive IncidentStatus where
  | DISPATCHED
  | RESOLVED
deriving Repr, DecidableEq

/-- The static responding-unit record built in `dispatchRescue`. -/
structure RescueUnit where
  name : String
  badge : String
  eta : String
  distance : String
  contact : String
deriving Repr, DecidableEq

/-- `activeIncident`: the rescue incident created by `dispatchRescue`. -/
structure Incident where
  id : Nat
  userId : String
  location : Location
  phone : String
  contacts : List Contact
  missedCalls : Nat
  dispatchedAt : Nat
  status : IncidentStatus
  resolvedAt : Option Nat
  unit : RescueUnit
deriving Repr, DecidableEq

/-- One per-user session object of the in-memory store. -/
structure Session where
  userId : String
  name : String
  phone : String
  emergencyContacts : List Contact
  enabled : Bool
  intervalMinutes : Nat
  graceSeconds : Nat
  lastLocation : Location
  currentCheckin : Option Checkin
  activeIncident : Option Incident
  log : List LogEntry
  stats : Stats
  socketId : Option String
deriving Repr, DecidableEq

/-- What a scheduled timer does when it fires. -/
inductive TAction where
  | checkin
  | grace
  | ring (n : Nat)
  | gap (n : Nat)
  | broadcast
deriving Repr, DecidableEq

/-- A pending `setTimeout`/`setInterval`: handle id, callback, deadline (ms). -/
structure LiveTimer where
  tid : Nat
  act : TAction
  fireAt : Nat
deriving Repr, DecidableEq

/-- An event delivered through the user's socket by `emit`. -/
structure EventRec where
  name : String
  ts : Nat
deriving Repr, DecidableEq

/-- Error response of a REST handler: HTTP status and `error` message. -/
structure ApiError where
  status : Nat
  msg : String
deriving Repr, DecidableEq

/-- Whole engine state for one user: the session, the `timers` map
(`slots`), every still-pending timer callback (`live`), the clock (ms),
the uuid counter, the timer-handle counter and the emitted events. -/
structure EngineState where
  session : Option Session
  slots : List (String × Nat)
  live : List LiveTimer
  now : Nat
  nextId : Nat
  nextT : Nat
  events : List EventRec
deriving Repr, DecidableEq

/-- JS `v || d` for an optional number field (`0` and `undefined` are falsy). -/
def jsOrNat (v : Option Nat) (d : Nat) : Nat :=
  match v with
  | some n => if n = 0 then d else n
  | none => d

/-- JS `n || d` for a number already present (`0` is falsy). -/
def nzNat (n d : Nat) : Nat := if n = 0 then d else n

/-- JS `v || d` for an optional string field (`""` and `undefined` are falsy). -/
def jsOrStr (v : Option String) (d : String) : String :=
  match v with
  | some s => if s = "" then d else s
  | none => d

/-- The default `lastLocation` used by `/api/register`. -/
def defaultLocation : Location :=
  { lat := 99312 / 10000, lng := 762673 / 10000
    address := "Marine Drive, Ernakulam", updatedAt := none }

/-- The static rescue unit record of `dispatchRescue`. -/
def alphaUnit : RescueUnit :=
  { name := "Women Safety Squad — Alpha Unit", badge := "WSS-A-2024"
    eta := "4 minutes", distance := "1.1 km", contact := "100" }

/-- Handle stored in the `timers` map under slot name `k`. -/
def lookupSlot (sl : List (String × Nat)) (k : String) : Option Nat :=
  (sl.find? (fun p => p.1 == k)).map (·.2)

/-- `timers.set(userId, { ...timers.get(userId), [k]: v })`. -/
def setSlot (sl : List (String × Nat)) (k : String) (v : Nat) : List (String × Nat) :=
  (k, v) :: sl.filter (fun p => p.1 != k)

/-- `clearTimers(userId, k)` for one key: if the map holds a handle under
`k`, cancel that timer and delete the key. -/
def clearKey (st : EngineState) (k : String) : EngineState :=
  match lookupSlot st.slots k with
  | none => st
  | some tid =>
      { st with live := st.live.filter (fun lt => lt.tid != tid)
                slots := st.slots.filter (fun p => p.1 != k) }

/-- `clearTimers(userId, ...keys)` with an explicit key list. -/
def clearKeys (st : EngineState) (ks : List String) : EngineState :=
  ks.foldl clearKey st

/-- `clearTimers(userId)` with no keys: every key present in the map is
cleared.  A timer whose handle was overwritten in the map is *not*
cancelled (the JS handle is lost). -/
def clearAllTimers (st : EngineState) : EngineState :=
  { st with live := st.live.filter (fun lt => !st.slots.any (fun p => p.2 == lt.tid))
            slots := [] }

/-- Schedule a callback `delayMs` from now and store its handle under `k`. -/
def scheduleTimer (st : EngineState) (k : String) (act : TAction) (delayMs : Nat) :
    EngineState :=
  { st with live := st.live ++ [{ tid := st.nextT, act := act, fireAt := st.now + delayMs }]
            slots := setSlot st.slots k st.nextT
            nextT := st.nextT + 1 }

/-- `emit(userId, event, ...)`: delivered only when a socket is attached. -/
def emit (st : EngineState) (ev : String) : EngineState :=
  match st.session with
  | none => st
  | some s =>
      { st with events :=
          if s.socketId.isSome then st.events ++ [{ name := ev, ts := st.now }] else st.events }

/-- `log.unshift(entry); if (log.length > 100) log.pop()`. -/
def pushLog (entry : LogEntry) (log : List LogEntry) : List LogEntry :=
  let log1 := entry :: log
  if log1.length > 100 then log1.dropLast else log1

/-- `addLog(userId, type, message)`. -/
def addLog (st : EngineState) (ty msg : String) : EngineState :=
  match st.session with
  | none => st
  | some s =>
      let entry : LogEntry := { id := st.nextId, type := ty, message := msg, ts := st.now }
      emit { st with nextId := st.nextId + 1
                     session := some { s with log := pushLog entry s.log } } "log_entry"

/-- `scheduleNextCheckin(userId)`. -/
def scheduleNextCheckin (st : EngineState) : EngineState :=
  match st.session with
  | none => st
  | some s =>
      if s.enabled then
        let st1 := addLog st "SCHEDULE" ("Next check-in in " ++ toString s.intervalMinutes ++ " min")
        scheduleTimer st1 "checkin" .checkin (s.intervalMinutes * 60 * 1000)
      else st

/-- `triggerCheckin(userId)`: callback of the `checkin` timer. -/
def triggerCheckin (st : EngineState) : EngineState :=
  match st.session with
  | none => st
  | some s =>
      if s.enabled then
        let c : Checkin :=
          { id := st.nextId, startedAt := st.now, responded := false
            respondedAt := none, ivrRound := 0, missedCalls := 0 }
        let s1 := { s with currentCheckin := some c
                           stats := { s.stats with totalCheckins := s.stats.totalCheckins + 1
                                                   pending := s.stats.pending + 1 } }
        let st1 := { st with session := some s1, nextId := st.nextId + 1 }
        let st2 := addLog st1 "CHECKIN"
          ("Notification sent — user has " ++ toString s.graceSeconds ++ "s to respond")
        let st3 := emit st2 "checkin_ping"
        scheduleTimer st3 "grace" .grace (s.graceSeconds * 1000)
      else st

/-- `startIVR(userId, n)`. -/
def startIVR (st : EngineState) (n : Nat) : EngineState :=
  match st.session with
  | none => st
  | some s =>
      match s.currentCheckin with
      | none => st
      | some c =>
          if c.responded then st
          else
            let s1 := { s with currentCheckin := some { c with ivrRound := n } }
            let st1 := { st with session := some s1 }
            let st2 := addLog st1 "IVR_CALL" ("📞 IVR Call #" ++ toString n ++ " → " ++ s.phone)
            let st3 := emit st2 "ivr_call"
            scheduleTimer st3 ("ivr" ++ toString n) (.ring n) 15000

/-- `grace` timer callback inside `triggerCheckin`. -/
def graceFire (st : EngineState) : EngineState :=
  match st.session with
  | none => st
  | some s =>
      match s.currentCheckin with
      | none => st
      | some c =>
          if c.responded then st
          else
            let s1 := { s with stats :=
              { s.stats with missedCheckins := s.stats.missedCheckins + 1
                             pending := max 0 (s.stats.pending - 1) } }
            let st1 := { st with session := some s1 }
            let st2 := addLog st1 "GRACE_EXPIRED" "Grace period elapsed — initiating IVR call sequence"
            let st3 := emit st2 "grace_expired"
            startIVR st3 1

/-- Simulated SMS alerts to every emergency contact (`forEach` in
`dispatchRescue`). -/
def smsNotify (st : EngineState) (contacts : List Contact) : EngineState :=
  contacts.foldl
    (fun acc c =>
      emit (addLog acc "SMS_SENT" ("📱 Alert SMS → " ++ c.name ++ " (" ++ c.phone ++ ")"))
        "sms_sent")
    st

/-- `dispatchRescue(userId)`.  The source reads
`s.currentCheckin.missedCalls` with no null check; the `none` branch
below marks the path on which the JS code would throw (unreachable from
`evaluateAndDispatch`, which checks the cycle first). -/
def dispatchRescue (st : EngineState) : EngineState :=
  match st.session with
  | none => st
  | some s =>
      match s.currentCheckin with
      | none => st
      | some c =>
          let incident : Incident :=
            { id := st.nextId, userId := s.userId, location := s.lastLocation
              phone := s.phone, contacts := s.emergencyContacts
              missedCalls := c.missedCalls, dispatchedAt := st.now
              status := .DISPATCHED, resolvedAt := none, unit := alphaUnit }
          let s1 := { s with stats := { s.stats with rescueDispatches := s.stats.rescueDispatches + 1 }
                             activeIncident := some incident }
          let st1 := { st with session := some s1, nextId := st.nextId + 1 }
          let st2 := addLog st1 "RESCUE" ("🚨 RESCUE DISPATCHED → " ++ s.lastLocation.address)
          let st3 := emit st2 "rescue_dispatched"
          let st4 := smsNotify st3 s.emergencyContacts
          scheduleTimer st4 "broadcast" .broadcast 10000

/-- `evaluateAndDispatch(userId)`. -/
def evaluateAndDispatch (st : EngineState) : EngineState :=
  match st.session with
  | none => st
  | some s =>
      match s.currentCheckin with
      | none => st
      | some c =>
          let missed := c.missedCalls
          let st1 := addLog st "EVALUATE" (toString missed ++ "/3 calls missed — evaluating rescue threshold")
          let st2 := emit st1 "evaluate"
          if missed ≥ 2 then dispatchRescue st2
          else
            let st3 := addLog st2 "RESUME" "Threshold not reached — monitoring resumed normally"
            let st4 := emit st3 "monitor_resumed"
            scheduleNextCheckin st4

/-- Ring timer callback of IVR call `n` (inside `startIVR`). -/
def ringFire (st : EngineState) (n : Nat) : EngineState :=
  match st.session with
  | none => st
  | some s =>
      match s.currentCheckin with
      | none => st
      | some c =>
          if c.responded then st
          else
            let c1 := { c with missedCalls := c.missedCalls + 1 }
            let s1 := { s with currentCheckin := some c1 }
            let st1 := { st with session := some s1 }
            let st2 := addLog st1 "IVR_MISSED"
              ("📵 Call #" ++ toString n ++ " not answered (missed: " ++ toString c1.missedCalls ++ "/3)")
            let st3 := emit st2 "ivr_missed"
            if n < 3 then
              let st4 := scheduleTimer st3 ("gap" ++ toString n) (.gap n) 10000
              let st5 := addLog st4 "IVR_GAP" ("Waiting 10s before Call #" ++ toString (n + 1) ++ "…")
              emit st5 "ivr_gap"
            else evaluateAndDispatch st3

/-- Broadcast interval callback (inside `dispatchRescue`); `tid` is the
handle the closure would pass to `clearInterval`. -/
def broadcastFire (st : EngineState) (tid : Nat) : EngineState :=
  match st.session with
  | none => { st with live := st.live.filter (fun lt => lt.tid != tid) }
  | some s =>
      match s.activeIncident with
      | none => { st with live := st.live.filter (fun lt => lt.tid != tid) }
      | some _ => emit st "location_broadcast"

/-- `POST /api/register`. -/
def register (st : EngineState) (uid name phone : Option String)
    (contacts : Option (List Contact)) (loc : Option Location) :
    EngineState × Option ApiError :=
  match uid with
  | none => (st, some { status := 400, msg := "userId required" })
  | some u =>
      if u = "" then (st, some { status := 400, msg := "userId required" })
      else
        let ex := st.session
        let s : Session :=
          { userId := u
            name := jsOrStr name (jsOrStr (ex.map Session.name) "User")
            phone := jsOrStr phone (jsOrStr (ex.map Session.phone) "+91-0000000000")
            emergencyContacts :=
              match contacts with
              | some l => l
              | none => match ex with | some e => e.emergencyContacts | none => []
            enabled := (ex.map Session.enabled).getD false
            intervalMinutes := jsOrNat (ex.map Session.intervalMinutes) 30
            graceSeconds := jsOrNat (ex.map Session.graceSeconds) 60
            lastLocation :=
              match loc with
              | some l => l
              | none => match ex with | some e => e.lastLocation | none => defaultLocation
            currentCheckin := none
            activeIncident := none
            log := match ex with | some e => e.log | none => []
            stats := match ex with
              | some e => e.stats
              | none => { totalCheckins := 0, missedCheckins := 0, rescueDispatches := 0, pending := 0 }
            socketId := match ex with | some e => e.socketId | none => none }
        ({ st with session := some s }, none)

/-- `POST /api/checkin/enable`. -/
def enable (st : EngineState) (im gs : Option Nat) : EngineState × Option ApiError :=
  match st.session with
  | none => (st, some { status := 404, msg := "Session not found. Register first." })
  | some s =>
      let st1 := clearAllTimers st
      let s1 := { s with enabled := true
                         intervalMinutes := jsOrNat im (nzNat s.intervalMinutes 30)
                         graceSeconds := jsOrNat gs (nzNat s.graceSeconds 60)
                         currentCheckin := none
                         activeIncident := none }
      let st2 := { st1 with session := some s1 }
      let st3 := addLog st2 "ENABLED"
        ("Monitor ON — interval: " ++ toString s1.intervalMinutes ++ "m, grace: " ++ toString s1.graceSeconds ++ "s")
      let st4 := emit st3 "monitor_enabled"
      (scheduleNextCheckin st4, none)

/-- `POST /api/checkin/disable`. -/
def disable (st : EngineState) : EngineState × Option ApiError :=
  match st.session with
  | none => (st, some { status := 404, msg := "Session not found" })
  | some s =>
      let st1 := clearAllTimers st
      let s1 := { s with enabled := false, currentCheckin := none, activeIncident := none }
      let st2 := { st1 with session := some s1 }
      let st3 := addLog st2 "DISABLED" "Monitor stopped by user"
      (emit st3 "monitor_disabled", none)

/-- `POST /api/checkin/respond`. -/
def respondToCheckin (st : EngineState) (checkinId : Nat) : EngineState × Option ApiError :=
  match st.session with
  | none => (st, some { status := 404, msg := "Session not found" })
  | some s =>
      match s.currentCheckin with
      | none => (st, some { status := 400, msg := "No active check-in" })
      | some c =>
          if c.responded then (st, some { status := 400, msg := "No active check-in" })
          else if c.id ≠ checkinId then (st, some { status := 400, msg := "Check-in ID mismatch" })
          else
            let c1 := { c with responded := true, respondedAt := some st.now }
            let s1 := { s with currentCheckin := some c1
                               stats := { s.stats with pending := max 0 (s.stats.pending - 1) } }
            let st1 := { st with session := some s1 }
            let st2 := clearKeys st1 ["grace", "ivr1", "ivr2", "ivr3", "gap1", "gap2"]
            let st3 := addLog st2 "RESPONDED" "✅ User confirmed safe via notification"
            let st4 := emit st3 "checkin_ok"
            (scheduleNextCheckin st4, none)

/-- `POST /api/ivr/respond`. -/
def respondToCall (st : EngineState) (callNumber : Nat) : EngineState × Option ApiError :=
  match st.session with
  | none => (st, some { status := 404, msg := "No active check-in" })
  | some s =>
      match s.currentCheckin with
      | none => (st, some { status := 404, msg := "No active check-in" })
      | some c =>
          if c.responded then (st, some { status := 400, msg := "Already responded" })
          else
            let st1 := clearKeys st
              ["ivr" ++ toString callNumber, "gap" ++ toString callNumber, "gap1", "gap2"]
            let c1 := { c with responded := true, respondedAt := some st.now }
            let s1 := { s with currentCheckin := some c1 }
            let st2 := { st1 with session := some s1 }
            let st3 := addLog st2 "IVR_OK"
              ("✅ User answered IVR Call #" ++ toString callNumber ++ " — confirmed safe")
            let st4 := emit st3 "ivr_answered"
            (scheduleNextCheckin st4, none)

/-- `POST /api/location/update`. -/
def updateLocation (st : EngineState) (lat lng : Rat) (address : Option String) :
    EngineState × Option ApiError :=
  match st.session with
  | none => (st, some { status := 404, msg := "Session not found" })
  | some s =>
      let l : Location :=
        { lat := lat, lng := lng
          address := jsOrStr address s.lastLocation.address, updatedAt := some st.now }
      ({ st with session := some { s with lastLocation := l } }, none)

/-- `POST /api/incident/resolve`.  On an id match the incident object is
first marked RESOLVED with a timestamp and then dropped from the session
together with the cycle; on a mismatch the handler does nothing and still
answers success. -/
def resolveIncident (st : EngineState) (incidentId : Nat) : EngineState × Option ApiError :=
  match st.session with
  | none => (st, some { status := 404, msg := "Session not found" })
  | some s =>
      match s.activeIncident with
      | none => (st, none)
      | some inc =>
          if inc.id = incidentId then
            let st1 := clearKey st "broadcast"
            let marked : Incident := { inc with status := .RESOLVED, resolvedAt := some st.now }
            let sMark := { s with activeIncident := some marked }
            let s1 := { sMark with activeIncident := none, currentCheckin := none }
            let st2 := { st1 with session := some s1 }
            let st3 := addLog st2 "RESOLVED" "Incident resolved. User confirmed safe. Monitoring resumed."
            let st4 := emit st3 "incident_resolved"
            (scheduleNextCheckin st4, none)
          else (st, none)

/-- Run the callback of a live timer. -/
def runTimer (st : EngineState) (lt : LiveTimer) : EngineState :=
  match lt.act with
  | .checkin => triggerCheckin st
  | .grace => graceFire st
  | .ring n => ringFire st n
  | .gap n => startIVR st (n + 1)
  | .broadcast => broadcastFire st lt.tid

/-- The pending timer with the least deadline (earliest scheduled wins a
tie, as in the event loop). -/
def earliestTimer (l : List LiveTimer) : Option LiveTimer :=
  l.foldl
    (fun acc lt =>
      match acc with
      | none => some lt
      | some b => if lt.fireAt < b.fireAt then some lt else some b)
    none

/-- One event-loop step: advance the clock to the next deadline, retire
the timeout (an interval instead re-arms itself), run the callback. -/
def fireNext (st : EngineState) : Option EngineState :=
  match earliestTimer st.live with
  | none => none
  | some lt =>
      let live1 :=
        if lt.act = .broadcast then
          st.live.map (fun x => if x.tid == lt.tid then { x with fireAt := x.fireAt + 10000 } else x)
        else st.live.filter (fun x => x.tid != lt.tid)
      some (runTimer { st with now := lt.fireAt, live := live1 } lt)

/-- Fire the next `n` timers in deadline order. -/
def fireN : Nat → EngineState → Option EngineState
  | 0, st => some st
  | n + 1, st => (fireNext st).bind (fireN n)

/-- One input to the engine: a REST operation or a timer callback
reaching the engine (possibly stale). -/
inductive Step where
  | registerU (uid name phone : Option String) (contacts : Option (List Contact)) (loc : Option Location)
  | enableU (im gs : Option Nat)
  | disableU
  | respondCheckin (checkinId : Nat)
  | respondCall (callNumber : Nat)
  | updateLoc (lat lng : Rat) (address : Option String)
  | resolveU (incidentId : Nat)
  | fireCheckin
  | fireGrace
  | fireRing (n : Nat)
  | fireGap (n : Nat)
  | fireBroadcast (tid : Nat)

/-- Apply one input to the engine state. -/
def applyStep (st : EngineState) : Step → EngineState
  | .registerU u n p c l => (register st u n p c l).1
  | .enableU im gs => (enable st im gs).1
  | .disableU => (disable st).1
  | .respondCheckin cid => (respondToCheckin st cid).1
  | .respondCall cn => (respondToCall st cn).1
  | .updateLoc lat lng a => (updateLocation st lat lng a).1
  | .resolveU iid => (resolveIncident st iid).1
  | .fireCheckin => triggerCheckin st
  | .fireGrace => graceFire st
  | .fireRing n => ringFire st n
  | .fireGap n => startIVR st (n + 1)
  | .fireBroadcast tid => broadcastFire st tid

/-- Apply a sequence of inputs left to right. -/
def runSteps (st : EngineState) (l : List Step) : EngineState :=
  l.foldl applyStep st

/-- The in-flight cycle of the state, when a session exists. -/
def cycleOf (st : EngineState) : Option Checkin :=
  st.session.bind Session.currentCheckin

/-- The active incident of the state, when a session exists. -/
def incidentOf (st : EngineState) : Option Incident :=
  st.session.bind Session.activeIncident

/-- The stats record of the state, when a session exists. -/
def statsOf (st : EngineState) : Option Stats :=
  st.session.map Session.stats

/-- The `enabled` flag of the state, when a session exists. -/
def enabledOf (st : EngineState) : Option Bool :=
  st.session.map Session.enabled

/-- The `intervalMinutes` config of the state, when a session exists. -/
def intervalOf (st : EngineState) : Option Nat :=
  st.session.map Session.intervalMinutes

/-- The `graceSeconds` config of the state, when a session exists. -/
def graceOf (st : EngineState) : Option Nat :=
  st.session.map Session.graceSeconds

/-- Zeroed stats record (`register` default for a new user). -/
def stats0 : Stats :=
  { totalCheckins := 0, missedCheckins := 0, rescueDispatches := 0, pending := 0 }

/-- Concrete fixture: an unresponded in-flight cycle. -/
def wCheckin : Checkin :=
  { id := 5, startedAt := 0, responded := false, respondedAt := none, ivrRound := 0, missedCalls := 0 }

/-- Concrete fixture: an enabled session awaiting a check-in response. -/
def wSession : Session :=
  { userId := "user001", name := "Asha", phone := "+91-9876543210"
    emergencyContacts := [{ name := "Mom", phone := "+91-1111111111" }]
    enabled := true, intervalMinutes := 1, graceSeconds := 90
    lastLocation := defaultLocation, currentCheckin := some wCheckin
    activeIncident := none, log := [], stats := stats0, socketId := some "sock1" }

/-- Concrete fixture: engine state holding `wSession`. -/
def wState : EngineState :=
  { session := some wSession, slots := [], live := [], now := 0, nextId := 6, nextT := 0, events := [] }

/-- Concrete fixture: engine state with no session at all. -/
def emptyState : EngineState :=
  { session := none, slots := [], live := [], now := 0, nextId := 0, nextT := 0, events := [] }

/-- Concrete fixture: same as `wState` but the cycle is already responded. -/
def respondedState : EngineState :=
  { wState with session := some { wSession with currentCheckin := some { wCheckin with responded := true } } }

/-- Concrete fixture: a dispatched incident. -/
def wIncident : Incident :=
  { id := 9, userId := "user001", location := defaultLocation, phone := "+91-9876543210"
    contacts := [], missedCalls := 3, dispatchedAt := 0, status := .DISPATCHED
    resolvedAt := none, unit := alphaUnit }

/-- Concrete fixture: engine state with an active incident and its
broadcast interval live. -/
def incidentState : EngineState :=
  { session := some { wSession with activeIncident := some wIncident }
    slots := [("broadcast", 7)], live := [{ tid := 7, act := .broadcast, fireAt := 10000 }]
    now := 0, nextId := 10, nextT := 8, events := [] }

/-- Every live timer is still reachable through the `timers` map — no
handle has been leaked by overwriting a slot. -/
def noLeak (st : EngineState) : Prop :=
  ∀ lt, lt ∈ st.live → ∃ k, lookupSlot st.slots k = some lt.tid

/-- Component-wise order on the three monotone stats counters. -/
def StatsLe (a b : Stats) : Prop :=
  a.totalCheckins ≤ b.totalCheckins ∧ a.missedCheckins ≤ b.missedCheckins ∧
  a.rescueDispatches ≤ b.rescueDispatches

/-- After one engine input, any in-flight cycle either descends from a
same-id cycle of the previous state without losing `missedCalls` or a
`responded` mark, or is a freshly created cycle (its id is at least the
previous uuid counter). -/
def Descend (st st' : EngineState) : Prop :=
  ∀ c', cycleOf st' = some c' →
    (∃ c, cycleOf st = some c ∧ c.id = c'.id ∧ c.missedCalls ≤ c'.missedCalls ∧
      (c.responded = true → c'.responded = true))
    ∨ st.nextId ≤ c'.id

/-- The stored log length stays within the 100-entry cap. -/
def LogLenOk (st : EngineState) : Prop :=
  ∀ s, st.session = some s → s.log.length ≤ 100

/-- Everything one engine input preserves: cycle descent, a monotone uuid
counter, monotone stats counters, session existence and the log cap. -/
structure StepOk (st st' : EngineState) : Prop where
  desc : Descend st st'
  nextId_le : st.nextId ≤ st'.nextId
  stats : ∀ s s', st.session = some s → st'.session = some s' → StatsLe s.stats s'.stats
  kept : st.session.isSome = true → st'.session.isSome = true
  loglen : LogLenOk st → LogLenOk st'

/-- The stored log after a sequence of appends onto an empty log. -/
def logAfter (entries : List LogEntry) : List LogEntry :=
  entries.foldl (fun acc e => pushLog e acc) []

/-- Concrete fixture for the stale-grace race: a registered, not yet
enabled session with no cycle. -/
def cexState0 : EngineState :=
  { session := some { wSession with currentCheckin := none, enabled := false }
    slots := [], live := [], now := 0, nextId := 0, nextT := 0, events := [] }

/-- Race trace: enable with a 1-minute interval and a 90-second grace. -/
def cexA : EngineState := (enable cexState0 (some 1) (some 90)).1

/-- Race trace: the check-in fires at 60 s; cycle A starts, grace due 150 s. -/
def cexB : EngineState := (fireN 1 cexA).getD cexA

/-- Race trace: the user answers IVR call 3 (no such call is ringing —
`callNumber` is not validated), which marks cycle A responded but leaves
the grace timeout of cycle A running, and schedules the next check-in. -/
def cexC : EngineState := (respondToCall cexB 3).1

/-- Race trace: six timer fires — the next check-in creates cycle B
(overwriting the `grace` slot while cycle A's grace timeout stays live),
then the stale grace fires into cycle B followed by ring 1, gap 1,
ring 2 and gap 2, leaving cycle B at `ivrRound = 3`. -/
def cexD : EngineState := (fireN 6 cexC).getD cexC

/-- Race trace: cycle B's own grace timeout now fires and restarts the
IVR sequence, dropping `ivrRound` from 3 back to 1 in the same cycle. -/
def cexE : EngineState := (fireNext cexD).getD cexD

/-- One user record of the prototype backend (`src/backend/server.js`):
`users[userId] = { interval, missedCalls }`. -/
structure ProtoUser where
  interval : Option Nat
  missedCalls : Nat
deriving Repr, DecidableEq

/-- The prototype backend's `users` object. -/
def ProtoUsers : Type := List (String × ProtoUser)

/-- `users[userId]` read. -/
def protoLookup (us : ProtoUsers) (uid : String) : Option ProtoUser :=
  (List.find? (fun p => p.1 == uid) us).map (·.2)

/-- `users[userId] = u` write. -/
def protoSet (us : ProtoUsers) (uid : String) (u : ProtoUser) : ProtoUsers :=
  (uid, u) :: List.filter (fun p => p.1 != uid) us

/-- A thrown JS `TypeError` (dereferencing a field of `undefined`). -/
inductive JsError where
  | typeError (msg : String)
deriving Repr, DecidableEq

/-- `POST /start` of the prototype backend. -/
def protoStart (us : ProtoUsers) (uid : String) (interval : Option Nat) : ProtoUsers :=
  protoSet us uid { interval := interval, missedCalls := 0 }

/-- `POST /ok` of the prototype backend: `users[userId].missedCalls = 0`
throws when the user was never registered. -/
def protoOk (us : ProtoUsers) (uid : String) : Except JsError ProtoUsers :=
  match protoLookup us uid with
  | none => .error (.typeError "Cannot set properties of undefined (setting missedCalls)")
  | some u => .ok (protoSet us uid { u with missedCalls := 0 })

/-- `ivrCall(userId)` of the prototype backend:
`users[userId].missedCalls++` throws when the user was never registered. -/
def protoIvrCall (us : ProtoUsers) (uid : String) : Except JsError ProtoUsers :=
  match protoLookup us uid with
  | none => .error (.typeError "Cannot read properties of undefined (reading missedCalls)")
  | some u => .ok (protoSet us uid { u with missedCalls := u.missedCalls + 1 })

/-- `POST /location` of the prototype backend: logs the coordinates and
calls `ivrCall` unconditionally. -/
def protoLocation (us : ProtoUsers) (uid : String) : Except JsError ProtoUsers :=
  protoIvrCall us uid

@[simp] theorem emit_session (st : EngineState) (ev : String) : (emit st ev).session = st.session := by
  cases h : st.session <;> simp [emit, h]

@[simp] theorem emit_slots (st : EngineState) (ev : String) : (emit st ev).slots = st.slots := by
  cases h : st.session <;> simp [emit, h]

@[simp] theorem emit_live (st : EngineState) (ev : String) : (emit st ev).live = st.live := by
  cases h : st.session <;> simp [emit, h]

@[simp] theorem emit_now (st : EngineState) (ev : String) : (emit st ev).now = st.now := by
  cases h : st.session <;> simp [emit, h]

@[simp] theorem emit_nextId (st : EngineState) (ev : String) : (emit st ev).nextId = st.nextId := by
  cases h : st.session <;> simp [emit, h]

@[simp] theorem emit_nextT (st : EngineState) (ev : String) : (emit st ev).nextT = st.nextT := by
  cases h : st.session <;> simp [emit, h]

@[simp] theorem addLog_slots (st : EngineState) (ty m : String) : (addLog st ty m).slots = st.slots := by
  cases h : st.session <;> simp [addLog, h]

@[simp] theorem addLog_live (st : EngineState) (ty m : String) : (addLog st ty m).live = st.live := by
  cases h : st.session <;> simp [addLog, h]

@[simp] theorem addLog_now (st : EngineState) (ty m : String) : (addLog st ty m).now = st.now := by
  cases h : st.session <;> simp [addLog, h]

@[simp] theorem addLog_nextT (st : EngineState) (ty m : String) : (addLog st ty m).nextT = st.nextT := by
  cases h : st.session <;> simp [addLog, h]

@[simp] theorem addLog_events (st : EngineState) (ty m : String) :
    (addLog st ty m).events = st.events ++
      (match st.session with
        | none => []
        | some s => if s.socketId.isSome then [{ name := "log_entry", ts := st.now }] else []) := by
  cases h : st.session with
  | none => simp [addLog, h]
  | some s => cases hs : s.socketId <;> simp [addLog, emit, h, hs]

@[simp] theorem cycleOf_addLog (st : EngineState) (ty m : String) :
    cycleOf (addLog st ty m) = cycleOf st := by
  cases h : st.session <;> simp [cycleOf, addLog, h]

@[simp] theorem incidentOf_addLog (st : EngineState) (ty m : String) :
    incidentOf (addLog st ty m) = incidentOf st := by
  cases h : st.session <;> simp [incidentOf, addLog, h]

@[simp] theorem statsOf_addLog (st : EngineState) (ty m : String) :
    statsOf (addLog st ty m) = statsOf st := by
  cases h : st.session <;> simp [statsOf, addLog, h]

@[simp] theorem enabledOf_addLog (st : EngineState) (ty m : String) :
    enabledOf (addLog st ty m) = enabledOf st := by
  cases h : st.session <;> simp [enabledOf, addLog, h]

@[simp] theorem intervalOf_addLog (st : EngineState) (ty m : String) :
    intervalOf (addLog st ty m) = intervalOf st := by
  cases h : st.session <;> simp [intervalOf, addLog, h]

@[simp] theorem graceOf_addLog (st : EngineState) (ty m : String) :
    graceOf (addLog st ty m) = graceOf st := by
  cases h : st.session <;> simp [graceOf, addLog, h]

@[simp] theorem addLog_session_isSome (st : EngineState) (ty m : String) :
    (addLog st ty m).session.isSome = st.session.isSome := by
  cases h : st.session <;> simp [addLog, h]

@[simp] theorem clearKey_session (st : EngineState) (k : String) :
    (clearKey st k).session = st.session := by
  unfold clearKey; cases lookupSlot st.slots k <;> rfl

@[simp] theorem clearKey_now (st : EngineState) (k : String) : (clearKey st k).now = st.now := by
  unfold clearKey; cases lookupSlot st.slots k <;> rfl

@[simp] theorem clearKey_nextId (st : EngineState) (k : String) :
    (clearKey st k).nextId = st.nextId := by
  unfold clearKey; cases lookupSlot st.slots k <;> rfl

@[simp] theorem clearKey_nextT (st : EngineState) (k : String) :
    (clearKey st k).nextT = st.nextT := by
  unfold clearKey; cases lookupSlot st.slots k <;> rfl

@[simp] theorem clearKey_events (st : EngineState) (k : String) :
    (clearKey st k).events = st.events := by
  unfold clearKey; cases lookupSlot st.slots k <;> rfl

@[simp] theorem clearKeys_session (st : EngineState) (ks : List String) :
    (clearKeys st ks).session = st.session := by
  induction ks generalizing st with
  | nil => rfl
  | cons k ks ih => simp [clearKeys] at ih ⊢; rw [ih, clearKey_session]

@[simp] theorem clearKeys_now (st : EngineState) (ks : List String) :
    (clearKeys st ks).now = st.now := by
  induction ks generalizing st with
  | nil => rfl
  | cons k ks ih => simp [clearKeys] at ih ⊢; rw [ih, clearKey_now]

@[simp] theorem clearKeys_nextId (st : EngineState) (ks : List String) :
    (clearKeys st ks).nextId = st.nextId := by
  induction ks generalizing st with
  | nil => rfl
  | cons k ks ih => simp [clearKeys] at ih ⊢; rw [ih, clearKey_nextId]

@[simp] theorem clearKeys_nextT (st : EngineState) (ks : List String) :
    (clearKeys st ks).nextT = st.nextT := by
  induction ks generalizing st with
  | nil => rfl
  | cons k ks ih => simp [clearKeys] at ih ⊢; rw [ih, clearKey_nextT]

@[simp] theorem clearKeys_events (st : EngineState) (ks : List String) :
    (clearKeys st ks).events = st.events := by
  induction ks generalizing st with
  | nil => rfl
  | cons k ks ih => simp [clearKeys] at ih ⊢; rw [ih, clearKey_events]

@[simp] theorem clearAllTimers_session (st : EngineState) :
    (clearAllTimers st).session = st.session := rfl

@[simp] theorem clearAllTimers_now (st : EngineState) : (clearAllTimers st).now = st.now := rfl

@[simp] theorem clearAllTimers_nextId (st : EngineState) :
    (clearAllTimers st).nextId = st.nextId := rfl

@[simp] theorem clearAllTimers_nextT (st : EngineState) :
    (clearAllTimers st).nextT = st.nextT := rfl

@[simp] theorem scheduleTimer_session (st : EngineState) (k : String) (a : TAction) (d : Nat) :
    (scheduleTimer st k a d).session = st.session := rfl

@[simp] theorem scheduleTimer_now (st : EngineState) (k : String) (a : TAction) (d : Nat) :
    (scheduleTimer st k a d).now = st.now := rfl

@[simp] theorem scheduleTimer_nextId (st : EngineState) (k : String) (a : TAction) (d : Nat) :
    (scheduleTimer st k a d).nextId = st.nextId := rfl

@[simp] theorem scheduleTimer_live (st : EngineState) (k : String) (a : TAction) (d : Nat) :
    (scheduleTimer st k a d).live =
      st.live ++ [{ tid := st.nextT, act := a, fireAt := st.now + d }] := rfl

@[simp] theorem cycleOf_emit (st : EngineState) (ev : String) :
    cycleOf (emit st ev) = cycleOf st := by
  simp [cycleOf]

@[simp] theorem incidentOf_emit (st : EngineState) (ev : String) :
    incidentOf (emit st ev) = incidentOf st := by
  simp [incidentOf]

@[simp] theorem statsOf_emit (st : EngineState) (ev : String) :
    statsOf (emit st ev) = statsOf st := by
  simp [statsOf]

@[simp] theorem enabledOf_emit (st : EngineState) (ev : String) :
    enabledOf (emit st ev) = enabledOf st := by
  simp [enabledOf]

@[simp] theorem cycleOf_scheduleTimer (st : EngineState) (k : String) (a : TAction) (d : Nat) :
    cycleOf (scheduleTimer st k a d) = cycleOf st := rfl

@[simp] theorem incidentOf_scheduleTimer (st : EngineState) (k : String) (a : TAction) (d : Nat) :
    incidentOf (scheduleTimer st k a d) = incidentOf st := rfl

@[simp] theorem statsOf_scheduleTimer (st : EngineState) (k : String) (a : TAction) (d : Nat) :
    statsOf (scheduleTimer st k a d) = statsOf st := rfl

@[simp] theorem enabledOf_scheduleTimer (st : EngineState) (k : String) (a : TAction) (d : Nat) :
    enabledOf (scheduleTimer st k a d) = enabledOf st := rfl

@[simp] theorem cycleOf_scheduleNextCheckin (st : EngineState) :
    cycleOf (scheduleNextCheckin st) = cycleOf st := by
  cases h : st.session with
  | none => simp [scheduleNextCheckin, h]
  | some s =>
      by_cases he : s.enabled
      · simp only [scheduleNextCheckin, h, he, if_true, cycleOf_scheduleTimer, cycleOf_addLog]
      · simp [scheduleNextCheckin, h, he]

@[simp] theorem incidentOf_scheduleNextCheckin (st : EngineState) :
    incidentOf (scheduleNextCheckin st) = incidentOf st := by
  cases h : st.session with
  | none => simp [scheduleNextCheckin, h]
  | some s =>
      by_cases he : s.enabled
      · simp only [scheduleNextCheckin, h, he, if_true, incidentOf_scheduleTimer, incidentOf_addLog]
      · simp [scheduleNextCheckin, h, he]

@[simp] theorem statsOf_scheduleNextCheckin (st : EngineState) :
    statsOf (scheduleNextCheckin st) = statsOf st := by
  cases h : st.session with
  | none => simp [scheduleNextCheckin, h]
  | some s =>
      by_cases he : s.enabled
      · simp only [scheduleNextCheckin, h, he, if_true, statsOf_scheduleTimer, statsOf_addLog]
      · simp [scheduleNextCheckin, h, he]

@[simp] theorem enabledOf_scheduleNextCheckin (st : EngineState) :
    enabledOf (scheduleNextCheckin st) = enabledOf st := by
  cases h : st.session with
  | none => simp [scheduleNextCheckin, h]
  | some s =>
      by_cases he : s.enabled
      · simp only [scheduleNextCheckin, h, he, if_true, enabledOf_scheduleTimer, enabledOf_addLog]
      · simp [scheduleNextCheckin, h, he]

@[simp] theorem scheduleNextCheckin_now (st : EngineState) :
    (scheduleNextCheckin st).now = st.now := by
  cases h : st.session with
  | none => simp [scheduleNextCheckin, h]
  | some s => by_cases he : s.enabled <;> simp [scheduleNextCheckin, h, he, scheduleTimer]

/-- When monitoring is enabled, `scheduleNextCheckin` appends exactly one
`checkin` timer due a full interval from now. -/
theorem scheduleNextCheckin_live (st : EngineState) (s : Session)
    (hs : st.session = some s) (he : s.enabled = true) :
    (scheduleNextCheckin st).live =
      st.live ++ [{ tid := st.nextT, act := .checkin, fireAt := st.now + s.intervalMinutes * 60 * 1000 }] := by
  unfold scheduleNextCheckin
  simp [hs, he, scheduleTimer]

/-- A grace callback that finds no cycle, or a cycle already responded,
returns without touching anything. -/
theorem graceFire_noop (st : EngineState)
    (h : cycleOf st = none ∨ (cycleOf st).map Checkin.responded = some true) :
    graceFire st = st := by
  cases hs : st.session with
  | none => simp [graceFire, hs]
  | some s =>
      cases hc : s.currentCheckin with
      | none => simp [graceFire, hs, hc]
      | some c =>
          have hr : c.responded = true := by
            rcases h with h | h
            · simp [cycleOf, hs, hc] at h
            · simpa [cycleOf, hs, hc] using h
          simp [graceFire, hs, hc, hr]

/-- A ring callback that finds no cycle, or a cycle already responded,
returns without touching anything. -/
theorem ringFire_noop (st : EngineState) (n : Nat)
    (h : cycleOf st = none ∨ (cycleOf st).map Checkin.responded = some true) :
    ringFire st n = st := by
  cases hs : st.session with
  | none => simp [ringFire, hs]
  | some s =>
      cases hc : s.currentCheckin with
      | none => simp [ringFire, hs, hc]
      | some c =>
          have hr : c.responded = true := by
            rcases h with h | h
            · simp [cycleOf, hs, hc] at h
            · simpa [cycleOf, hs, hc] using h
          simp [ringFire, hs, hc, hr]

/-- `addLog` only prepends to the session's log (and truncates at 100). -/
theorem addLog_session (st : EngineState) (s : Session) (ty m : String)
    (hs : st.session = some s) :
    (addLog st ty m).session =
      some { s with log := pushLog { id := st.nextId, type := ty, message := m, ts := st.now } s.log } := by
  simp [addLog, hs]

/-- `smsNotify` only appends log entries; every other session field stays. -/
theorem smsNotify_session (cs : List Contact) (st : EngineState) (s : Session)
    (hs : st.session = some s) :
    ∃ l, (smsNotify st cs).session = some { s with log := l } := by
  induction cs generalizing st s with
  | nil => exact ⟨s.log, by simpa [smsNotify] using hs⟩
  | cons c cs ih =>
      obtain ⟨l, hl⟩ := ih (emit (addLog st "SMS_SENT" ("📱 Alert SMS → " ++ c.name ++ " (" ++ c.phone ++ ")")) "sms_sent") { s with log := pushLog { id := st.nextId, type := "SMS_SENT", message := "📱 Alert SMS → " ++ c.name ++ " (" ++ c.phone ++ ")", ts := st.now } s.log } (by rw [emit_session]; exact addLog_session st s _ _ hs)
      exact ⟨l, by simpa [smsNotify] using hl⟩

@[simp] theorem smsNotify_now (cs : List Contact) (st : EngineState) :
    (smsNotify st cs).now = st.now := by
  induction cs generalizing st with
  | nil => rfl
  | cons c cs ih => simp [smsNotify] at ih ⊢; rw [ih]; simp

@[simp] theorem smsNotify_live (cs : List Contact) (st : EngineState) :
    (smsNotify st cs).live = st.live := by
  induction cs generalizing st with
  | nil => rfl
  | cons c cs ih => simp [smsNotify] at ih ⊢; rw [ih]; simp

@[simp] theorem smsNotify_slots (cs : List Contact) (st : EngineState) :
    (smsNotify st cs).slots = st.slots := by
  induction cs generalizing st with
  | nil => rfl
  | cons c cs ih => simp [smsNotify] at ih ⊢; rw [ih]; simp

@[simp] theorem smsNotify_nextT (cs : List Contact) (st : EngineState) :
    (smsNotify st cs).nextT = st.nextT := by
  induction cs generalizing st with
  | nil => rfl
  | cons c cs ih => simp [smsNotify] at ih ⊢; rw [ih]; simp

/-- `scheduleNextCheckin` changes the session only through its log. -/
theorem scheduleNextCheckin_session (st : EngineState) (s : Session)
    (hs : st.session = some s) :
    ∃ l, (scheduleNextCheckin st).session = some { s with log := l } := by
  by_cases he : s.enabled
  · refine ⟨pushLog { id := st.nextId, type := "SCHEDULE", message := "Next check-in in " ++ toString s.intervalMinutes ++ " min", ts := st.now } s.log, ?_⟩
    simp only [scheduleNextCheckin, hs]
    rw [if_pos he, scheduleTimer_session]
    exact addLog_session st s _ _ hs
  · refine ⟨s.log, ?_⟩
    simp only [scheduleNextCheckin, hs]
    rw [if_neg he, hs]

/-- A `startIVR` invocation that finds no cycle, or a responded cycle,
returns without touching anything. -/
theorem startIVR_noop (st : EngineState) (n : Nat)
    (h : cycleOf st = none ∨ (cycleOf st).map Checkin.responded = some true) :
    startIVR st n = st := by
  cases hs : st.session with
  | none => simp [startIVR, hs]
  | some s =>
      cases hc : s.currentCheckin with
      | none => simp [startIVR, hs, hc]
      | some c =>
          have hr : c.responded = true := by
            rcases h with h | h
            · simp [cycleOf, hs, hc] at h
            · simpa [cycleOf, hs, hc] using h
          simp [startIVR, hs, hc, hr]

end SafeZone

namespace SafeZone

/-- Successful `respondToCheckin` fully unfolded: the cycle is marked
responded, the pending gauge is floored at 0, the escalation timer keys
are cleared and the next check-in is scheduled. -/
theorem respondToCheckin_success (st : EngineState) (s : Session) (c : Checkin)
    (hs : st.session = some s) (hc : s.currentCheckin = some c) (hr : c.responded = false) :
    respondToCheckin st c.id =
      (scheduleNextCheckin (emit (addLog (clearKeys { st with session := some { s with currentCheckin := some { c with responded := true, respondedAt := some st.now }, stats := { s.stats with pending := max 0 (s.stats.pending - 1) } } } ["grace", "ivr1", "ivr2", "ivr3", "gap1", "gap2"]) "RESPONDED" "✅ User confirmed safe via notification") "checkin_ok"), none) := by
  simp [respondToCheckin, hs, hc, hr]

/-- C2: a timer callback that finds its state superseded is a silent
no-op: a grace or ring callback seeing no cycle, or a responded cycle,
returns the state unchanged (so no log entry and no event); a broadcast
tick seeing no active incident leaves the session, events, slot map and
clock unchanged and only cancels its own interval; and when a user
response is processed before the grace timer fires, the grace callback
afterwards changes nothing, so the final state keeps `responded = true`
and no IVR round is started. -/
theorem C2_stale_timer_callbacks_are_silent (st : EngineState) (tid n : Nat) :
    ((cycleOf st = none ∨ (cycleOf st).map Checkin.responded = some true) →
      graceFire st = st ∧ ringFire st n = st)
    ∧ (incidentOf st = none →
        (broadcastFire st tid).session = st.session ∧
        (broadcastFire st tid).events = st.events ∧
        (broadcastFire st tid).slots = st.slots ∧
        (broadcastFire st tid).now = st.now ∧
        (broadcastFire st tid).live = st.live.filter (fun lt => lt.tid != tid))
    ∧ (∀ s c, st.session = some s → s.currentCheckin = some c → c.responded = false →
        (respondToCheckin st c.id).2 = none ∧
        graceFire (respondToCheckin st c.id).1 = (respondToCheckin st c.id).1 ∧
        (cycleOf (respondToCheckin st c.id).1).map Checkin.responded = some true ∧
        (cycleOf (respondToCheckin st c.id).1).map Checkin.ivrRound = some c.ivrRound) := by
  refine ⟨fun h => ⟨graceFire_noop st h, ringFire_noop st n h⟩, ?_, ?_⟩
  · intro h
    cases hs : st.session with
    | none => simp [broadcastFire, hs]
    | some s =>
        have hi : s.activeIncident = none := by simpa [incidentOf, hs] using h
        simp [broadcastFire, hs, hi]
  · intro s c hs hc hr
    have hcomp := respondToCheckin_success st s c hs hc hr
    have hcyc : cycleOf (respondToCheckin st c.id).1 =
        some { c with responded := true, respondedAt := some st.now } := by
      rw [hcomp]
      simp only [cycleOf_scheduleNextCheckin, cycleOf_emit, cycleOf_addLog]
      simp [cycleOf, clearKeys_session]
    refine ⟨by rw [hcomp], ?_, by simp [hcyc], by simp [hcyc]⟩
    exact graceFire_noop _ (Or.inr (by rw [hcyc]; rfl))

/-- Witness for C2 at the concrete fixture state. -/
theorem C2_witness :
    (respondToCheckin wState 5).2 = none ∧
    graceFire (respondToCheckin wState 5).1 = (respondToCheckin wState 5).1 ∧
    (cycleOf (respondToCheckin wState 5).1).map Checkin.responded = some true ∧
    (cycleOf (respondToCheckin wState 5).1).map Checkin.ivrRound = some 0 :=
  (C2_stale_timer_callbacks_are_silent wState 0 1).2.2 wSession wCheckin rfl rfl rfl

theorem find_filter_self (sl : List (String × Nat)) (k : String) :
    (sl.filter (fun p => p.1 != k)).find? (fun p => p.1 == k) = none := by
  induction sl with
  | nil => rfl
  | cons p sl ih =>
      by_cases h : p.1 = k
      · simpa [List.filter_cons, h] using ih
      · simp [List.filter_cons, List.find?_cons, h, ih]

theorem find_filter_ne (sl : List (String × Nat)) (k k' : String) (h : k ≠ k') :
    (sl.filter (fun p => p.1 != k')).find? (fun p => p.1 == k) =
      sl.find? (fun p => p.1 == k) := by
  induction sl with
  | nil => rfl
  | cons p sl ih =>
      by_cases hp : p.1 = k
      · have : p.1 ≠ k' := by rw [hp]; exact h
        simp [List.filter_cons, List.find?_cons, hp, this, h]
      · by_cases hp' : p.1 = k'
        · simp [List.filter_cons, List.find?_cons, hp, hp', ih, Ne.symm h]
        · simp [List.filter_cons, List.find?_cons, hp, hp', ih]

theorem lookupSlot_setSlot_self (sl : List (String × Nat)) (k : String) (v : Nat) :
    lookupSlot (setSlot sl k v) k = some v := by
  simp [lookupSlot, setSlot, List.find?_cons]

theorem lookupSlot_setSlot_ne (sl : List (String × Nat)) (k k' : String) (v : Nat) (h : k ≠ k') :
    lookupSlot (setSlot sl k' v) k = lookupSlot sl k := by
  simp [lookupSlot, setSlot, List.find?_cons, Ne.symm h, find_filter_ne sl k k' h]

theorem clearKey_lookup_self (st : EngineState) (k : String) :
    lookupSlot (clearKey st k).slots k = none := by
  unfold clearKey
  cases h : lookupSlot st.slots k with
  | none => exact h
  | some t => simp [lookupSlot, find_filter_self]

theorem clearKey_lookup_ne (st : EngineState) (k k' : String) (h : k ≠ k') :
    lookupSlot (clearKey st k').slots k = lookupSlot st.slots k := by
  unfold clearKey
  cases hl : lookupSlot st.slots k' with
  | none => rfl
  | some t => simp [lookupSlot, find_filter_ne st.slots k k' h]

theorem clearKey_preserve_none (st : EngineState) (k k' : String)
    (h : lookupSlot st.slots k = none) :
    lookupSlot (clearKey st k').slots k = none := by
  by_cases hk : k = k'
  · rw [hk]; exact clearKey_lookup_self st k'
  · rw [clearKey_lookup_ne st k k' hk]; exact h

theorem clearKeys_preserve_none (st : EngineState) (ks : List String) (k : String)
    (h : lookupSlot st.slots k = none) :
    lookupSlot (clearKeys st ks).slots k = none := by
  induction ks generalizing st with
  | nil => exact h
  | cons k' ks ih =>
      simp only [clearKeys, List.foldl_cons] at *
      exact ih (clearKey st k') (clearKey_preserve_none st k k' h)

theorem clearKeys_lookup_none (st : EngineState) (ks : List String) (k : String)
    (h : k ∈ ks) :
    lookupSlot (clearKeys st ks).slots k = none := by
  induction ks generalizing st with
  | nil => cases h
  | cons k' ks ih =>
      simp only [clearKeys, List.foldl_cons]
      by_cases hk : k = k'
      · subst hk
        exact clearKeys_preserve_none (clearKey st k) ks k (clearKey_lookup_self st k)
      · have hm : k ∈ ks := by
          cases h with
          | head => exact absurd rfl hk
          | tail _ h => exact h
        exact ih (clearKey st k') hm

theorem clearKey_live_subset (st : EngineState) (k : String) (lt : LiveTimer)
    (h : lt ∈ (clearKey st k).live) : lt ∈ st.live := by
  unfold clearKey at h
  cases hl : lookupSlot st.slots k with
  | none => rw [hl] at h; exact h
  | some t =>
      rw [hl] at h
      exact List.mem_of_mem_filter h



theorem clearKey_removes (st : EngineState) (k : String) (t : Nat)
    (ht : lookupSlot st.slots k = some t) :
    ∀ lt, lt ∈ (clearKey st k).live → lt.tid ≠ t := by
  unfold clearKey
  rw [ht]
  intro lt hm
  have := List.of_mem_filter hm
  simpa using this

theorem clearKeys_live_subset (st : EngineState) (ks : List String) (lt : LiveTimer)
    (h : lt ∈ (clearKeys st ks).live) : lt ∈ st.live := by
  induction ks generalizing st with
  | nil => exact h
  | cons k' ks ih =>
      simp only [clearKeys, List.foldl_cons] at h
      exact clearKey_live_subset st k' lt (ih (clearKey st k') h)

theorem clearKeys_removes (st : EngineState) (ks : List String) (k : String) (t : Nat)
    (hk : k ∈ ks) (ht : lookupSlot st.slots k = some t) :
    ∀ lt, lt ∈ (clearKeys st ks).live → lt.tid ≠ t := by
  induction ks generalizing st with
  | nil => cases hk
  | cons k' ks ih =>
      intro lt hm
      simp only [clearKeys, List.foldl_cons] at hm
      by_cases hkk : k = k'
      · subst hkk
        exact clearKey_removes st k t ht lt (clearKeys_live_subset (clearKey st k) ks lt hm)
      · have hmem : k ∈ ks := by
          cases hk with
          | head => exact absurd rfl hkk
          | tail _ h => exact h
        have ht' : lookupSlot (clearKey st k').slots k = some t := by
          rw [clearKey_lookup_ne st k k' hkk]; exact ht
        exact ih (clearKey st k') hmem ht' lt hm

theorem scheduleNextCheckin_disabled (st : EngineState) (s : Session)
    (hs : st.session = some s) (he : s.enabled = false) :
    scheduleNextCheckin st = st := by
  simp [scheduleNextCheckin, hs, he]

theorem scheduleNextCheckin_slots (st : EngineState) (s : Session)
    (hs : st.session = some s) (he : s.enabled = true) :
    (scheduleNextCheckin st).slots = setSlot st.slots "checkin" st.nextT ∧
    (scheduleNextCheckin st).nextT = st.nextT + 1 := by
  simp only [scheduleNextCheckin, hs]
  rw [if_pos he]
  constructor
  · simp [scheduleTimer]
  · simp [scheduleTimer]



theorem clearKey_ignores_session (st st' : EngineState) (k : String)
    (h1 : st'.slots = st.slots) (h2 : st'.live = st.live) :
    (clearKey st' k).slots = (clearKey st k).slots ∧
    (clearKey st' k).live = (clearKey st k).live := by
  unfold clearKey
  rw [h1, h2]
  cases lookupSlot st.slots k with
  | none => exact ⟨h1, h2⟩
  | some t => exact ⟨rfl, rfl⟩

theorem clearKeys_ignores_session (st st' : EngineState) (ks : List String)
    (h1 : st'.slots = st.slots) (h2 : st'.live = st.live) :
    (clearKeys st' ks).slots = (clearKeys st ks).slots ∧
    (clearKeys st' ks).live = (clearKeys st ks).live := by
  induction ks generalizing st st' with
  | nil => exact ⟨h1, h2⟩
  | cons k ks ih =>
      simp only [clearKeys, List.foldl_cons] at *
      obtain ⟨ha, hb⟩ := clearKey_ignores_session st st' k h1 h2
      exact ih (clearKey st k) (clearKey st' k) ha hb

theorem lookupSlot_mem_snd (sl : List (String × Nat)) (k : String) (t : Nat)
    (h : lookupSlot sl k = some t) : t ∈ sl.map Prod.snd := by
  unfold lookupSlot at h
  cases hf : sl.find? (fun p => p.1 == k) with
  | none => rw [hf] at h; cases h
  | some p =>
      rw [hf] at h
      simp at h
      have := List.mem_of_find?_eq_some hf
      subst h
      exact List.mem_map_of_mem Prod.snd this

/-- Successful `respondToCheckin` decomposed: the result schedules the
next check-in on top of a state whose session carries the responded
cycle and floored pending gauge, and whose timers are those of the
original state with the six escalation keys cleared. -/
theorem respondToCheckin_success_parts (st : EngineState) (s : Session) (c : Checkin)
    (hs : st.session = some s) (hc : s.currentCheckin = some c) (hr : c.responded = false) :
    (respondToCheckin st c.id).2 = none ∧
    ∃ A1 : EngineState, (respondToCheckin st c.id).1 = scheduleNextCheckin A1 ∧
      (∃ l, A1.session = some { s with currentCheckin := some { c with responded := true, respondedAt := some st.now }, stats := { s.stats with pending := max 0 (s.stats.pending - 1) }, log := l }) ∧
      A1.slots = (clearKeys st ["grace", "ivr1", "ivr2", "ivr3", "gap1", "gap2"]).slots ∧
      A1.live = (clearKeys st ["grace", "ivr1", "ivr2", "ivr3", "gap1", "gap2"]).live ∧
      A1.now = st.now ∧ A1.nextT = st.nextT := by
  have hcomp := respondToCheckin_success st s c hs hc hr
  refine ⟨by rw [hcomp], Exists.intro (emit (addLog (clearKeys { st with session := some { s with currentCheckin := some { c with responded := true, respondedAt := some st.now }, stats := { s.stats with pending := max 0 (s.stats.pending - 1) } } } ["grace", "ivr1", "ivr2", "ivr3", "gap1", "gap2"]) "RESPONDED" "✅ User confirmed safe via notification") "checkin_ok") ⟨by rw [hcomp], ?_, ?_, ?_, ?_, ?_⟩⟩
  · rw [emit_session]
    exact ⟨_, addLog_session _ { s with currentCheckin := some { c with responded := true, respondedAt := some st.now }, stats := { s.stats with pending := max 0 (s.stats.pending - 1) } } _ _ (by rw [clearKeys_session])⟩
  · rw [emit_slots, addLog_slots]
    refine (clearKeys_ignores_session st _ _ ?_ ?_).1 <;> rfl
  · rw [emit_live, addLog_live]
    refine (clearKeys_ignores_session st _ _ ?_ ?_).2 <;> rfl
  · simp
  · simp



theorem C3_respondToCheckin_contract (st : EngineState) (cid : Nat) :
    (st.session = none → respondToCheckin st cid = (st, some { status := 404, msg := "Session not found" }))
    ∧ (∀ s, st.session = some s →
        (((respondToCheckin st cid).2 = none) ↔
          (∃ c, s.currentCheckin = some c ∧ c.responded = false ∧ c.id = cid))
        ∧ (s.currentCheckin = none →
            respondToCheckin st cid = (st, some { status := 400, msg := "No active check-in" }))
        ∧ (∀ c, s.currentCheckin = some c → c.responded = true →
            respondToCheckin st cid = (st, some { status := 400, msg := "No active check-in" }))
        ∧ (∀ c, s.currentCheckin = some c → c.responded = false → c.id ≠ cid →
            respondToCheckin st cid = (st, some { status := 400, msg := "Check-in ID mismatch" }))
        ∧ (∀ c, s.currentCheckin = some c → c.responded = false → c.id = cid →
            (cycleOf (respondToCheckin st cid).1).map Checkin.responded = some true ∧
            (statsOf (respondToCheckin st cid).1).map Stats.pending = some (max 0 (s.stats.pending - 1)) ∧
            (∀ p, (statsOf (respondToCheckin st cid).1).map Stats.pending = some p → 0 ≤ p) ∧
            (∀ k, k ∈ (["grace", "ivr1", "ivr2", "ivr3", "gap1", "gap2"] : List String) →
              lookupSlot (respondToCheckin st cid).1.slots k = none) ∧
            ((∀ t, t ∈ st.slots.map Prod.snd → t < st.nextT) →
              ∀ k t, k ∈ (["grace", "ivr1", "ivr2", "ivr3", "gap1", "gap2"] : List String) →
                lookupSlot st.slots k = some t →
                ∀ lt, lt ∈ (respondToCheckin st cid).1.live → lt.tid ≠ t) ∧
            (s.enabled = true →
              lookupSlot (respondToCheckin st cid).1.slots "checkin" = some st.nextT ∧
              ∃ lt, lt ∈ (respondToCheckin st cid).1.live ∧ lt.act = TAction.checkin ∧
                lt.fireAt = st.now + s.intervalMinutes * 60 * 1000))) := by
  constructor
  · intro h; simp [respondToCheckin, h]
  · intro s hs
    refine ⟨?_, ?_, ?_, ?_, ?_⟩
    · constructor
      · intro h
        cases hc : s.currentCheckin with
        | none => simp [respondToCheckin, hs, hc] at h
        | some c =>
            by_cases hr : c.responded
            · simp [respondToCheckin, hs, hc, hr] at h
            · have hrf : c.responded = false := by simpa using hr
              by_cases hid : c.id = cid
              · exact ⟨c, rfl, hrf, hid⟩
              · simp [respondToCheckin, hs, hc, hrf, hid] at h
      · rintro ⟨c, hc, hrf, hid⟩
        subst hid
        exact (respondToCheckin_success_parts st s c hs hc hrf).1
    · intro hc; simp [respondToCheckin, hs, hc]
    · intro c hc hr; simp [respondToCheckin, hs, hc, hr]
    · intro c hc hrf hid; simp [respondToCheckin, hs, hc, hrf, hid]
    · intro c hc hrf hid
      subst hid
      obtain ⟨h2, A1, hA1, ⟨l, hsess⟩, hslots, hlive, hnow, hnextT⟩ :=
        respondToCheckin_success_parts st s c hs hc hrf
      rw [hA1]
      refine ⟨?_, ?_, ?_, ?_, ?_, ?_⟩
      · rw [cycleOf_scheduleNextCheckin]
        simp [cycleOf, hsess]
      · rw [statsOf_scheduleNextCheckin]
        simp [statsOf, hsess]
      · intro p hp
        rw [statsOf_scheduleNextCheckin] at hp
        simp [statsOf, hsess] at hp
        rw [← hp]
        exact le_max_left 0 _
      · intro k hk
        by_cases he : s.enabled
        · obtain ⟨hsl, -⟩ := scheduleNextCheckin_slots A1 _ hsess he
          rw [hsl]
          have hkc : k ≠ "checkin" := by fin_cases hk <;> decide
          rw [lookupSlot_setSlot_ne _ _ _ _ hkc, hslots]
          exact clearKeys_lookup_none st _ k hk
        · have hef : s.enabled = false := by simpa using he
          rw [scheduleNextCheckin_disabled A1 _ hsess hef, hslots]
          exact clearKeys_lookup_none st _ k hk
      · intro hfresh k t hk ht lt hmem
        by_cases he : s.enabled
        · rw [scheduleNextCheckin_live A1 _ hsess he] at hmem
          rcases List.mem_append.mp hmem with hm | hm
          · rw [hlive] at hm
            exact clearKeys_removes st _ k t hk ht lt hm
          · have hlt : lt = { tid := A1.nextT, act := TAction.checkin, fireAt := A1.now + s.intervalMinutes * 60 * 1000 } := by
              simpa using hm
            have htlt : t < st.nextT := hfresh t (lookupSlot_mem_snd st.slots k t ht)
            rw [hlt, hnextT]
            intro hcontr
            simp at hcontr
            omega
        · have hef : s.enabled = false := by simpa using he
          rw [scheduleNextCheckin_disabled A1 _ hsess hef, hlive] at hmem
          exact clearKeys_removes st _ k t hk ht lt hmem
      · intro he
        obtain ⟨hsl, hnt⟩ := scheduleNextCheckin_slots A1 _ hsess he
        constructor
        · rw [hsl, lookupSlot_setSlot_self, hnextT]
        · rw [scheduleNextCheckin_live A1 _ hsess he]
          refine ⟨_, List.mem_append_right _ (List.mem_singleton_self _), rfl, ?_⟩
          rw [hnow]

/-- Witness for C3 at the concrete fixture state. -/
theorem C3_witness :
    (cycleOf (respondToCheckin wState 5).1).map Checkin.responded = some true :=
  (((C3_respondToCheckin_contract wState 5).2 wSession rfl).2.2.2.2 wCheckin rfl rfl rfl).1

theorem nzNat_ne_zero (a d : Nat) (hd : d ≠ 0) : nzNat a d ≠ 0 := by
  unfold nzNat; split <;> assumption

theorem jsOrNat_ne_zero (v : Option Nat) (d : Nat) (hd : d ≠ 0) : jsOrNat v d ≠ 0 := by
  cases v with
  | none => simpa [jsOrNat] using hd
  | some n => by_cases h : n = 0 <;> simp [jsOrNat, h, hd]

theorem nzNat_of_ne (x d : Nat) (h : x ≠ 0) : nzNat x d = x := if_neg h

theorem jsOrNat_absorb (v : Option Nat) (x : Nat) : jsOrNat v (jsOrNat v x) = jsOrNat v x := by
  unfold jsOrNat
  cases v with
  | none => rfl
  | some n => by_cases h : n = 0 <;> simp [h]

/-- Applying the JS default chain twice yields the same configured value. -/
theorem jsOrNat_stable (v : Option Nat) (a d : Nat) (hd : d ≠ 0) :
    jsOrNat v (nzNat (jsOrNat v (nzNat a d)) d) = jsOrNat v (nzNat a d) := by
  rw [nzNat_of_ne _ _ (jsOrNat_ne_zero v _ (nzNat_ne_zero a d hd)), jsOrNat_absorb]

theorem lookupSlot_any (sl : List (String × Nat)) (k : String) (t : Nat)
    (h : lookupSlot sl k = some t) : sl.any (fun p => p.2 == t) = true := by
  unfold lookupSlot at h
  cases hf : sl.find? (fun p => p.1 == k) with
  | none => rw [hf] at h; cases h
  | some p =>
      rw [hf] at h
      simp at h
      refine List.any_eq_true.mpr ⟨p, List.mem_of_find?_eq_some hf, ?_⟩
      simp [h]

/-- With no leaked handles, `clearTimers(userId)` cancels every live timer. -/
theorem clearAllTimers_live_nil (st : EngineState) (h : noLeak st) :
    (clearAllTimers st).live = [] := by
  unfold clearAllTimers
  simp only
  rw [List.filter_eq_nil]
  intro lt hm
  obtain ⟨k, hk⟩ := h lt hm
  simp [lookupSlot_any st.slots k lt.tid hk]

/-- Successful `enable` decomposed. -/
theorem enable_parts (st : EngineState) (s : Session) (im gs : Option Nat)
    (hs : st.session = some s) :
    (enable st im gs).2 = none ∧
    ∃ A1 : EngineState, (enable st im gs).1 = scheduleNextCheckin A1 ∧
      (∃ l, A1.session = some { s with enabled := true, intervalMinutes := jsOrNat im (nzNat s.intervalMinutes 30), graceSeconds := jsOrNat gs (nzNat s.graceSeconds 60), currentCheckin := none, activeIncident := none, log := l }) ∧
      A1.slots = [] ∧ A1.live = (clearAllTimers st).live ∧
      A1.now = st.now ∧ A1.nextT = st.nextT := by
  have hcomp : enable st im gs = (scheduleNextCheckin (emit (addLog { clearAllTimers st with session := some { s with enabled := true, intervalMinutes := jsOrNat im (nzNat s.intervalMinutes 30), graceSeconds := jsOrNat gs (nzNat s.graceSeconds 60), currentCheckin := none, activeIncident := none } } "ENABLED" ("Monitor ON — interval: " ++ toString (jsOrNat im (nzNat s.intervalMinutes 30)) ++ "m, grace: " ++ toString (jsOrNat gs (nzNat s.graceSeconds 60)) ++ "s")) "monitor_enabled"), none) := by
    simp [enable, hs, jsOrNat, nzNat]
  refine ⟨by rw [hcomp], Exists.intro (emit (addLog { clearAllTimers st with session := some { s with enabled := true, intervalMinutes := jsOrNat im (nzNat s.intervalMinutes 30), graceSeconds := jsOrNat gs (nzNat s.graceSeconds 60), currentCheckin := none, activeIncident := none } } "ENABLED" ("Monitor ON — interval: " ++ toString (jsOrNat im (nzNat s.intervalMinutes 30)) ++ "m, grace: " ++ toString (jsOrNat gs (nzNat s.graceSeconds 60)) ++ "s")) "monitor_enabled") ⟨by rw [hcomp], ?_, ?_, ?_, ?_, ?_⟩⟩
  · rw [emit_session]
    exact ⟨_, addLog_session _ { s with enabled := true, intervalMinutes := jsOrNat im (nzNat s.intervalMinutes 30), graceSeconds := jsOrNat gs (nzNat s.graceSeconds 60), currentCheckin := none, activeIncident := none } _ _ rfl⟩
  · rw [emit_slots, addLog_slots]
    rfl
  · rw [emit_live, addLog_live]
  · simp
  · simp



@[simp] theorem intervalOf_emit (st : EngineState) (ev : String) :
    intervalOf (emit st ev) = intervalOf st := by
  simp [intervalOf]

@[simp] theorem graceOf_emit (st : EngineState) (ev : String) :
    graceOf (emit st ev) = graceOf st := by
  simp [graceOf]

@[simp] theorem intervalOf_scheduleTimer (st : EngineState) (k : String) (a : TAction) (d : Nat) :
    intervalOf (scheduleTimer st k a d) = intervalOf st := rfl

@[simp] theorem graceOf_scheduleTimer (st : EngineState) (k : String) (a : TAction) (d : Nat) :
    graceOf (scheduleTimer st k a d) = graceOf st := rfl

@[simp] theorem intervalOf_scheduleNextCheckin (st : EngineState) :
    intervalOf (scheduleNextCheckin st) = intervalOf st := by
  cases h : st.session with
  | none => simp [scheduleNextCheckin, h]
  | some s =>
      by_cases he : s.enabled
      · simp only [scheduleNextCheckin, h, he, if_true, intervalOf_scheduleTimer, intervalOf_addLog]
      · simp [scheduleNextCheckin, h, he]

@[simp] theorem graceOf_scheduleNextCheckin (st : EngineState) :
    graceOf (scheduleNextCheckin st) = graceOf st := by
  cases h : st.session with
  | none => simp [scheduleNextCheckin, h]
  | some s =>
      by_cases he : s.enabled
      · simp only [scheduleNextCheckin, h, he, if_true, graceOf_scheduleTimer, graceOf_addLog]
      · simp [scheduleNextCheckin, h, he]

theorem C4_enable_contract (st : EngineState) (im gs : Option Nat) :
    (st.session = none → enable st im gs = (st, some { status := 404, msg := "Session not found. Register first." }))
    ∧ (∀ s, st.session = some s →
        (enable st im gs).2 = none ∧
        enabledOf (enable st im gs).1 = some true ∧
        cycleOf (enable st im gs).1 = none ∧
        incidentOf (enable st im gs).1 = none ∧
        statsOf (enable st im gs).1 = some s.stats ∧
        (∀ n, im = some n → n ≠ 0 → intervalOf (enable st im gs).1 = some n) ∧
        (im = none → s.intervalMinutes ≠ 0 → intervalOf (enable st im gs).1 = some s.intervalMinutes) ∧
        (im = none → s.intervalMinutes = 0 → intervalOf (enable st im gs).1 = some 30) ∧
        (∀ n, gs = some n → n ≠ 0 → graceOf (enable st im gs).1 = some n) ∧
        (gs = none → s.graceSeconds ≠ 0 → graceOf (enable st im gs).1 = some s.graceSeconds) ∧
        (gs = none → s.graceSeconds = 0 → graceOf (enable st im gs).1 = some 60) ∧
        (noLeak st →
          ∃ M, intervalOf (enable st im gs).1 = some M ∧
            (enable st im gs).1.live = [{ tid := st.nextT, act := TAction.checkin, fireAt := st.now + M * 60 * 1000 }] ∧
            (enable st im gs).1.now = st.now ∧
            (enable (enable st im gs).1 im gs).2 = none ∧
            intervalOf (enable (enable st im gs).1 im gs).1 = some M ∧
            graceOf (enable (enable st im gs).1 im gs).1 = graceOf (enable st im gs).1 ∧
            (enable (enable st im gs).1 im gs).1.live = [{ tid := (enable st im gs).1.nextT, act := TAction.checkin, fireAt := st.now + M * 60 * 1000 }] ∧
            (enable (enable st im gs).1 im gs).1.now = st.now)) := by
  constructor
  · intro h; simp [enable, h]
  · intro s hs
    obtain ⟨h2, A1, hA1, ⟨l, hsess⟩, hslots, hlive, hnow, hnextT⟩ := enable_parts st s im gs hs
    have henab : enabledOf (enable st im gs).1 = some true := by
      rw [hA1, enabledOf_scheduleNextCheckin]
      simp [enabledOf, hsess]
    have hint : intervalOf (enable st im gs).1 = some (jsOrNat im (nzNat s.intervalMinutes 30)) := by
      rw [hA1, intervalOf_scheduleNextCheckin]
      simp [intervalOf, hsess]
    have hgr : graceOf (enable st im gs).1 = some (jsOrNat gs (nzNat s.graceSeconds 60)) := by
      rw [hA1, graceOf_scheduleNextCheckin]
      simp [graceOf, hsess]
    refine ⟨h2, henab, ?_, ?_, ?_, ?_, ?_, ?_, ?_, ?_, ?_, ?_⟩
    · rw [hA1, cycleOf_scheduleNextCheckin]
      simp [cycleOf, hsess]
    · rw [hA1, incidentOf_scheduleNextCheckin]
      simp [incidentOf, hsess]
    · rw [hA1, statsOf_scheduleNextCheckin]
      simp [statsOf, hsess]
    · intro n hn hne
      rw [hint, hn]
      simp [jsOrNat, hne]
    · intro hn hne
      rw [hint, hn]
      simp [jsOrNat, nzNat, hne]
    · intro hn hze
      rw [hint, hn]
      simp [jsOrNat, nzNat, hze]
    · intro n hn hne
      rw [hgr, hn]
      simp [jsOrNat, hne]
    · intro hn hne
      rw [hgr, hn]
      simp [jsOrNat, nzNat, hne]
    · intro hn hze
      rw [hgr, hn]
      simp [jsOrNat, nzNat, hze]
    · intro hnl
      refine ⟨jsOrNat im (nzNat s.intervalMinutes 30), hint, ?_⟩
      have hempty : A1.live = [] := by rw [hlive]; exact clearAllTimers_live_nil st hnl
      have hlive1 : (enable st im gs).1.live = [{ tid := st.nextT, act := TAction.checkin, fireAt := st.now + jsOrNat im (nzNat s.intervalMinutes 30) * 60 * 1000 }] := by
        rw [hA1, scheduleNextCheckin_live A1 _ hsess rfl, hempty, hnextT, hnow]
        rfl
      have hnow1 : (enable st im gs).1.now = st.now := by
        rw [hA1, scheduleNextCheckin_now, hnow]
      refine ⟨hlive1, hnow1, ?_⟩
      obtain ⟨l1, hsess1⟩ := scheduleNextCheckin_session A1 _ hsess
      have hsess1' : (enable st im gs).1.session = some { s with enabled := true, intervalMinutes := jsOrNat im (nzNat s.intervalMinutes 30), graceSeconds := jsOrNat gs (nzNat s.graceSeconds 60), currentCheckin := none, activeIncident := none, log := l1 } := by
        rw [hA1]; exact hsess1
      have hslots1 : (enable st im gs).1.slots = [("checkin", st.nextT)] := by
        rw [hA1, (scheduleNextCheckin_slots A1 _ hsess rfl).1, hslots, hnextT]
        rfl
      have hnl1 : noLeak (enable st im gs).1 := by
        intro lt hm
        rw [hlive1] at hm
        simp at hm
        refine ⟨"checkin", ?_⟩
        rw [hslots1, hm]
        rfl
      obtain ⟨h2b, B1, hB1, ⟨lb, hsessb⟩, hslotsb, hliveb, hnowb, hnextTb⟩ :=
        enable_parts (enable st im gs).1 _ im gs hsess1'
      have hintb : intervalOf (enable (enable st im gs).1 im gs).1 = some (jsOrNat im (nzNat (jsOrNat im (nzNat s.intervalMinutes 30)) 30)) := by
        rw [hB1, intervalOf_scheduleNextCheckin]
        simp [intervalOf, hsessb]
      have hgrb : graceOf (enable (enable st im gs).1 im gs).1 = some (jsOrNat gs (nzNat (jsOrNat gs (nzNat s.graceSeconds 60)) 60)) := by
        rw [hB1, graceOf_scheduleNextCheckin]
        simp [graceOf, hsessb]
      have hemptyb : B1.live = [] := by
        rw [hliveb]
        exact clearAllTimers_live_nil _ hnl1
      have hliveb1 : (enable (enable st im gs).1 im gs).1.live = [{ tid := (enable st im gs).1.nextT, act := TAction.checkin, fireAt := st.now + jsOrNat im (nzNat s.intervalMinutes 30) * 60 * 1000 }] := by
        rw [hB1, scheduleNextCheckin_live B1 _ hsessb rfl, hemptyb, hnextTb, hnowb, hnow1]
        simp [jsOrNat_stable im s.intervalMinutes 30 (by decide)]
      refine ⟨h2b, ?_, ?_, hliveb1, ?_⟩
      · rw [hintb, jsOrNat_stable im s.intervalMinutes 30 (by decide)]
      · rw [hgrb, hgr, jsOrNat_stable gs s.graceSeconds 60 (by decide)]
      · rw [hB1, scheduleNextCheckin_now, hnowb, hnow1]

/-- Witness for C4 at the concrete fixture state. -/
theorem C4_witness :
    (enable wState (some 2) none).2 = none ∧
    intervalOf (enable wState (some 2) none).1 = some 2 ∧
    graceOf (enable wState (some 2) none).1 = some 90 :=
  ⟨((C4_enable_contract wState (some 2) none).2 wSession rfl).1,
   ((C4_enable_contract wState (some 2) none).2 wSession rfl).2.2.2.2.2.1 2 rfl (by decide),
   ((C4_enable_contract wState (some 2) none).2 wSession rfl).2.2.2.2.2.2.2.2.2.1 rfl (by decide)⟩

/-- Matching `resolveIncident` decomposed: the broadcast slot is
cancelled, the (just-marked) incident and the cycle are dropped from the
session, and the next check-in is scheduled. -/
theorem resolveIncident_success_parts (st : EngineState) (s : Session) (inc : Incident)
    (hs : st.session = some s) (hi : s.activeIncident = some inc) :
    (resolveIncident st inc.id).2 = none ∧
    ∃ A1 : EngineState, (resolveIncident st inc.id).1 = scheduleNextCheckin A1 ∧
      (∃ l, A1.session = some { s with currentCheckin := none, activeIncident := none, log := l }) ∧
      A1.slots = (clearKey st "broadcast").slots ∧
      A1.live = (clearKey st "broadcast").live ∧
      A1.now = st.now ∧ A1.nextT = st.nextT := by
  have hcomp : resolveIncident st inc.id = (scheduleNextCheckin (emit (addLog { clearKey st "broadcast" with session := some { s with currentCheckin := none, activeIncident := none } } "RESOLVED" "Incident resolved. User confirmed safe. Monitoring resumed.") "incident_resolved"), none) := by
    simp [resolveIncident, hs, hi]
  refine ⟨by rw [hcomp], Exists.intro (emit (addLog { clearKey st "broadcast" with session := some { s with currentCheckin := none, activeIncident := none } } "RESOLVED" "Incident resolved. User confirmed safe. Monitoring resumed.") "incident_resolved") ⟨by rw [hcomp], ?_, ?_, ?_, ?_, ?_⟩⟩
  · rw [emit_session]
    exact ⟨_, addLog_session _ { s with currentCheckin := none, activeIncident := none } _ _ rfl⟩
  · rw [emit_slots, addLog_slots]
  · rw [emit_live, addLog_live]
  · simp
  · simp

theorem C5_resolveIncident_contract (st : EngineState) (iid : Nat) :
    (st.session = none → resolveIncident st iid = (st, some { status := 404, msg := "Session not found" }))
    ∧ (∀ s, st.session = some s →
        (resolveIncident st iid).2 = none ∧
        (s.activeIncident = none → resolveIncident st iid = (st, none)) ∧
        (∀ inc, s.activeIncident = some inc → inc.id ≠ iid → resolveIncident st iid = (st, none)) ∧
        (∀ inc, s.activeIncident = some inc → inc.id = iid →
            incidentOf (resolveIncident st iid).1 = none ∧
            cycleOf (resolveIncident st iid).1 = none ∧
            lookupSlot (resolveIncident st iid).1.slots "broadcast" = none ∧
            ((∀ t2, t2 ∈ st.slots.map Prod.snd → t2 < st.nextT) →
              ∀ t, lookupSlot st.slots "broadcast" = some t →
                ∀ lt, lt ∈ (resolveIncident st iid).1.live → lt.tid ≠ t) ∧
            (s.enabled = true →
              lookupSlot (resolveIncident st iid).1.slots "checkin" = some st.nextT ∧
              ∃ lt, lt ∈ (resolveIncident st iid).1.live ∧ lt.act = TAction.checkin ∧
                lt.fireAt = st.now + s.intervalMinutes * 60 * 1000))) := by
  constructor
  · intro h; simp [resolveIncident, h]
  · intro s hs
    refine ⟨?_, ?_, ?_, ?_⟩
    · cases hi : s.activeIncident with
      | none => simp [resolveIncident, hs, hi]
      | some inc =>
          by_cases hid : inc.id = iid
          · subst hid
            exact (resolveIncident_success_parts st s inc hs hi).1
          · simp [resolveIncident, hs, hi, hid]
    · intro hi; simp [resolveIncident, hs, hi]
    · intro inc hi hid; simp [resolveIncident, hs, hi, hid]
    · intro inc hi hid
      subst hid
      obtain ⟨h2, A1, hA1, ⟨l, hsess⟩, hslots, hlive, hnow, hnextT⟩ :=
        resolveIncident_success_parts st s inc hs hi
      rw [hA1]
      refine ⟨?_, ?_, ?_, ?_, ?_⟩
      · rw [incidentOf_scheduleNextCheckin]
        simp [incidentOf, hsess]
      · rw [cycleOf_scheduleNextCheckin]
        simp [cycleOf, hsess]
      · by_cases he : s.enabled
        · obtain ⟨hsl, -⟩ := scheduleNextCheckin_slots A1 _ hsess he
          rw [hsl, lookupSlot_setSlot_ne _ _ _ _ (by decide), hslots]
          exact clearKey_lookup_self st "broadcast"
        · have hef : s.enabled = false := by simpa using he
          rw [scheduleNextCheckin_disabled A1 _ hsess hef, hslots]
          exact clearKey_lookup_self st "broadcast"
      · intro hfresh t ht lt hmem
        by_cases he : s.enabled
        · rw [scheduleNextCheckin_live A1 _ hsess he] at hmem
          rcases List.mem_append.mp hmem with hm | hm
          · rw [hlive] at hm
            exact clearKey_removes st "broadcast" t ht lt hm
          · have hlt : lt = { tid := A1.nextT, act := TAction.checkin, fireAt := A1.now + s.intervalMinutes * 60 * 1000 } := by
              simpa using hm
            have htlt : t < st.nextT := hfresh t (lookupSlot_mem_snd st.slots "broadcast" t ht)
            rw [hlt, hnextT]
            intro hcontr
            simp at hcontr
            omega
        · have hef : s.enabled = false := by simpa using he
          rw [scheduleNextCheckin_disabled A1 _ hsess hef, hlive] at hmem
          exact clearKey_removes st "broadcast" t ht lt hmem
      · intro he
        obtain ⟨hsl, hnt⟩ := scheduleNextCheckin_slots A1 _ hsess he
        constructor
        · rw [hsl, lookupSlot_setSlot_self, hnextT]
        · rw [scheduleNextCheckin_live A1 _ hsess he]
          refine ⟨_, List.mem_append_right _ (List.mem_singleton_self _), rfl, ?_⟩
          rw [hnow]

/-- Witness for C5 at the concrete fixture state with an active incident. -/
theorem C5_witness :
    (resolveIncident incidentState 9).2 = none ∧
    incidentOf (resolveIncident incidentState 9).1 = none ∧
    cycleOf (resolveIncident incidentState 9).1 = none :=
  ⟨((C5_resolveIncident_contract incidentState 9).2 _ rfl).1,
   (((C5_resolveIncident_contract incidentState 9).2 _ rfl).2.2.2 wIncident rfl rfl).1,
   (((C5_resolveIncident_contract incidentState 9).2 _ rfl).2.2.2 wIncident rfl rfl).2.1⟩

/-- C6 counterexample: registering an existing user again does NOT
preserve `currentCheckin` or `activeIncident` — both are reset to absent
even though the request cannot carry them. -/
theorem C6_counterexample :
    cycleOf wState = some wCheckin ∧
    cycleOf (register wState (some "user001") none none none none).1 = none ∧
    incidentOf incidentState = some wIncident ∧
    incidentOf (register incidentState (some "user001") none none none none).1 = none :=
  ⟨rfl, rfl, rfl, rfl⟩

/-- C6 (amended): re-registering merges supplied fields over existing
ones and preserves `name`, `phone`, contacts, location, `enabled`,
config, log, stats and the subscriber handle when absent from the
request, but always resets `currentCheckin` and `activeIncident`;
a new user gets the documented defaults. -/
theorem C6_register_merge (st : EngineState) (uid : String)
    (name phone : Option String) (contacts : Option (List Contact)) (loc : Option Location)
    (hu : uid ≠ "") :
    ((register st (some uid) name phone contacts loc).2 = none)
    ∧ (∀ s, st.session = some s → s.name ≠ "" → s.phone ≠ "" →
        s.intervalMinutes ≠ 0 → s.graceSeconds ≠ 0 →
        name = none → phone = none → contacts = none → loc = none →
        (register st (some uid) name phone contacts loc).1.session =
          some { s with userId := uid, currentCheckin := none, activeIncident := none })
    ∧ (∀ s, st.session = some s → s.intervalMinutes ≠ 0 → s.graceSeconds ≠ 0 →
        ∀ n p cs l, name = some n → n ≠ "" → phone = some p → p ≠ "" →
        contacts = some cs → loc = some l →
        (register st (some uid) name phone contacts loc).1.session =
          some { s with userId := uid, name := n, phone := p, emergencyContacts := cs,
                        lastLocation := l, currentCheckin := none, activeIncident := none })
    ∧ (st.session = none → name = none → phone = none → contacts = none → loc = none →
        (register st (some uid) name phone contacts loc).1.session =
          some { userId := uid, name := "User", phone := "+91-0000000000",
                 emergencyContacts := [], enabled := false, intervalMinutes := 30,
                 graceSeconds := 60, lastLocation := defaultLocation, currentCheckin := none,
                 activeIncident := none, log := [], stats := stats0, socketId := none }) := by
  refine ⟨?_, ?_, ?_, ?_⟩
  · simp [register, hu]
  · intro s hs hn hp hi hg h1 h2 h3 h4
    subst h1; subst h2; subst h3; subst h4
    simp [register, hu, hs, jsOrStr, jsOrNat, hn, hp, hi, hg]
  · intro s hs hi hg n p cs l h1 hn h2 hp h3 h4
    subst h1; subst h2; subst h3; subst h4
    simp [register, hu, hs, jsOrStr, jsOrNat, hn, hp, hi, hg]
  · intro hs h1 h2 h3 h4
    subst h1; subst h2; subst h3; subst h4
    simp [register, hu, hs, jsOrStr, jsOrNat, stats0]

/-- Witness for the amended C6 at concrete input. -/
theorem C6_witness :
    (register wState (some "user001") none none none none).1.session =
      some { wSession with userId := "user001", currentCheckin := none, activeIncident := none } :=
  ((C6_register_merge wState "user001" none none none none (by decide)).2.1 wSession rfl
    (by decide) (by decide) (by decide) (by decide) rfl rfl rfl rfl)

/-- C7 counterexample: answering an IVR call for a cycle that is already
responded fails with HTTP 400 ("Already responded"), not 404 as claimed. -/
theorem C7_counterexample :
    (respondToCall respondedState 1).2 = some { status := 400, msg := "Already responded" } ∧
    (respondToCall respondedState 1).2.map ApiError.status ≠ some 404 :=
  ⟨rfl, by decide⟩

/-- Successful `respondToCall` decomposed. -/
theorem respondToCall_success_parts (st : EngineState) (s : Session) (c : Checkin) (cn : Nat)
    (hs : st.session = some s) (hc : s.currentCheckin = some c) (hr : c.responded = false) :
    (respondToCall st cn).2 = none ∧
    ∃ A1 : EngineState, (respondToCall st cn).1 = scheduleNextCheckin A1 ∧
      (∃ l, A1.session = some { s with currentCheckin := some { c with responded := true, respondedAt := some st.now }, log := l }) ∧
      A1.slots = (clearKeys st ["ivr" ++ toString cn, "gap" ++ toString cn, "gap1", "gap2"]).slots ∧
      A1.live = (clearKeys st ["ivr" ++ toString cn, "gap" ++ toString cn, "gap1", "gap2"]).live ∧
      A1.now = st.now ∧ A1.nextT = st.nextT := by
  have hcomp : respondToCall st cn = (scheduleNextCheckin (emit (addLog { clearKeys st ["ivr" ++ toString cn, "gap" ++ toString cn, "gap1", "gap2"] with session := some { s with currentCheckin := some { c with responded := true, respondedAt := some st.now } } } "IVR_OK" ("✅ User answered IVR Call #" ++ toString cn ++ " — confirmed safe")) "ivr_answered"), none) := by
    simp [respondToCall, hs, hc, hr]
  refine ⟨by rw [hcomp], Exists.intro (emit (addLog { clearKeys st ["ivr" ++ toString cn, "gap" ++ toString cn, "gap1", "gap2"] with session := some { s with currentCheckin := some { c with responded := true, respondedAt := some st.now } } } "IVR_OK" ("✅ User answered IVR Call #" ++ toString cn ++ " — confirmed safe")) "ivr_answered") ⟨by rw [hcomp], ?_, ?_, ?_, ?_, ?_⟩⟩
  · rw [emit_session]
    exact ⟨_, addLog_session _ { s with currentCheckin := some { c with responded := true, respondedAt := some st.now } } _ _ rfl⟩
  · rw [emit_slots, addLog_slots]
  · rw [emit_live, addLog_live]
  · simp
  · simp

/-- C7 (amended): `respondToCall` succeeds iff a cycle exists and is
unresponded, regardless of `callNumber`; on success it marks responded,
leaves `ivrRound` unchanged, creates no incident, clears the named
ring/gap slots and schedules the next check-in.  It fails 404 (NotFound)
when there is no session or no active cycle, but 400 ("Already
responded") — not 404 — when the cycle is already responded. -/
theorem C7_respondToCall_contract (st : EngineState) (cn : Nat) :
    (st.session = none → respondToCall st cn = (st, some { status := 404, msg := "No active check-in" }))
    ∧ (∀ s, st.session = some s →
        (s.currentCheckin = none →
          respondToCall st cn = (st, some { status := 404, msg := "No active check-in" }))
        ∧ (∀ c, s.currentCheckin = some c → c.responded = true →
            respondToCall st cn = (st, some { status := 400, msg := "Already responded" }))
        ∧ (((respondToCall st cn).2 = none) ↔
            (∃ c, s.currentCheckin = some c ∧ c.responded = false))
        ∧ (∀ c, s.currentCheckin = some c → c.responded = false →
            (cycleOf (respondToCall st cn).1).map Checkin.responded = some true ∧
            (cycleOf (respondToCall st cn).1).map Checkin.ivrRound = some c.ivrRound ∧
            incidentOf (respondToCall st cn).1 = s.activeIncident ∧
            (∀ k, k ∈ (["ivr" ++ toString cn, "gap" ++ toString cn, "gap1", "gap2"] : List String) →
              k ≠ "checkin" → lookupSlot (respondToCall st cn).1.slots k = none) ∧
            (s.enabled = true →
              lookupSlot (respondToCall st cn).1.slots "checkin" = some st.nextT ∧
              ∃ lt, lt ∈ (respondToCall st cn).1.live ∧ lt.act = TAction.checkin ∧
                lt.fireAt = st.now + s.intervalMinutes * 60 * 1000))) := by
  constructor
  · intro h; simp [respondToCall, h]
  · intro s hs
    refine ⟨?_, ?_, ?_, ?_⟩
    · intro hc; simp [respondToCall, hs, hc]
    · intro c hc hr; simp [respondToCall, hs, hc, hr]
    · constructor
      · intro h
        cases hc : s.currentCheckin with
        | none => simp [respondToCall, hs, hc] at h
        | some c =>
            by_cases hr : c.responded
            · simp [respondToCall, hs, hc, hr] at h
            · exact ⟨c, rfl, by simpa using hr⟩
      · rintro ⟨c, hc, hr⟩
        exact (respondToCall_success_parts st s c cn hs hc hr).1
    · intro c hc hr
      obtain ⟨h2, A1, hA1, ⟨l, hsess⟩, hslots, hlive, hnow, hnextT⟩ :=
        respondToCall_success_parts st s c cn hs hc hr
      rw [hA1]
      refine ⟨?_, ?_, ?_, ?_, ?_⟩
      · rw [cycleOf_scheduleNextCheckin]
        simp [cycleOf, hsess]
      · rw [cycleOf_scheduleNextCheckin]
        simp [cycleOf, hsess]
      · rw [incidentOf_scheduleNextCheckin]
        simp [incidentOf, hsess]
      · intro k hk hkc
        by_cases he : s.enabled
        · obtain ⟨hsl, -⟩ := scheduleNextCheckin_slots A1 _ hsess he
          rw [hsl, lookupSlot_setSlot_ne _ _ _ _ hkc, hslots]
          exact clearKeys_lookup_none st _ k hk
        · have hef : s.enabled = false := by simpa using he
          rw [scheduleNextCheckin_disabled A1 _ hsess hef, hslots]
          exact clearKeys_lookup_none st _ k hk
      · intro he
        obtain ⟨hsl, hnt⟩ := scheduleNextCheckin_slots A1 _ hsess he
        constructor
        · rw [hsl, lookupSlot_setSlot_self, hnextT]
        · rw [scheduleNextCheckin_live A1 _ hsess he]
          refine ⟨_, List.mem_append_right _ (List.mem_singleton_self _), rfl, ?_⟩
          rw [hnow]

/-- Witness for the amended C7: the sub-threshold resume scenario at a
concrete state in IVR round 1. -/
theorem C7_witness :
    (cycleOf (respondToCall wState 1).1).map Checkin.responded = some true ∧
    (cycleOf (respondToCall wState 1).1).map Checkin.ivrRound = some 0 ∧
    incidentOf (respondToCall wState 1).1 = none :=
  ⟨(((C7_respondToCall_contract wState 1).2 wSession rfl).2.2.2 wCheckin rfl rfl).1,
   (((C7_respondToCall_contract wState 1).2 wSession rfl).2.2.2 wCheckin rfl rfl).2.1,
   (((C7_respondToCall_contract wState 1).2 wSession rfl).2.2.2 wCheckin rfl rfl).2.2.1⟩

theorem statsLe_refl (a : Stats) : StatsLe a a := ⟨le_refl _, le_refl _, le_refl _⟩

theorem statsLe_trans {a b c : Stats} (h1 : StatsLe a b) (h2 : StatsLe b c) : StatsLe a c :=
  ⟨le_trans h1.1 h2.1, le_trans h1.2.1 h2.2.1, le_trans h1.2.2 h2.2.2⟩

theorem stepOk_refl (st : EngineState) : StepOk st st where
  desc := fun c' h => Or.inl ⟨c', h, rfl, le_refl _, fun h2 => h2⟩
  nextId_le := le_refl _
  stats := fun s s' h1 h2 => by
    rw [h1] at h2
    cases h2
    exact statsLe_refl _
  kept := fun h => h
  loglen := fun h => h

theorem stepOk_trans {st st1 st2 : EngineState} (h1 : StepOk st st1) (h2 : StepOk st1 st2) :
    StepOk st st2 where
  desc := by
    intro c' hc'
    rcases h2.desc c' hc' with ⟨c1, hc1, hid, hmc, hresp⟩ | hfresh
    · rcases h1.desc c1 hc1 with ⟨c, hc, hid0, hmc0, hresp0⟩ | hfresh0
      · exact Or.inl ⟨c, hc, hid0.trans hid, hmc0.trans hmc, fun h => hresp (hresp0 h)⟩
      · exact Or.inr (hid ▸ hfresh0)
    · exact Or.inr (le_trans h1.nextId_le hfresh)
  nextId_le := le_trans h1.nextId_le h2.nextId_le
  stats := by
    intro s s' hs hs'
    have hk : st1.session.isSome = true := h1.kept (by rw [hs]; rfl)
    obtain ⟨s1, hs1⟩ := Option.isSome_iff_exists.mp hk
    exact statsLe_trans (h1.stats s s1 hs hs1) (h2.stats s1 s' hs1 hs')
  kept := fun h => h2.kept (h1.kept h)
  loglen := fun h => h2.loglen (h1.loglen h)

theorem stepOk_congr {st st1 st2 : EngineState} (h : st1 = st2) (h1 : StepOk st st1) :
    StepOk st st2 := h ▸ h1

theorem stepOk_of_session_eq (st st' : EngineState) (hsess : st'.session = st.session)
    (hn : st.nextId ≤ st'.nextId) : StepOk st st' where
  desc := by
    intro c' hc'
    refine Or.inl ⟨c', ?_, rfl, le_refl _, fun h => h⟩
    rw [cycleOf, ← hsess]
    exact hc'
  nextId_le := hn
  stats := by
    intro s s' hs hs'
    rw [hsess, hs] at hs'
    cases hs'
    exact statsLe_refl _
  kept := by
    intro h
    rw [hsess]
    exact h
  loglen := by
    intro h s' hs'
    rw [hsess] at hs'
    exact h s' hs'

theorem pushLog_length_le (e : LogEntry) (l : List LogEntry) (h : l.length ≤ 100) :
    (pushLog e l).length ≤ 100 := by
  unfold pushLog
  by_cases hl : (e :: l).length > 100
  · simp only [hl, if_true]
    rw [List.length_dropLast]
    simp at hl ⊢
    omega
  · simp only [hl, if_false]
    simp at hl
    simpa using hl

theorem stepOk_emit (st : EngineState) (ev : String) : StepOk st (emit st ev) :=
  stepOk_of_session_eq st _ (emit_session st ev) (by simp)

theorem stepOk_addLog (st : EngineState) (ty m : String) : StepOk st (addLog st ty m) := by
  cases hs : st.session with
  | none =>
      exact stepOk_congr (show st = addLog st ty m by simp [addLog, hs]) (stepOk_refl st)
  | some s =>
      have hsess := addLog_session st s ty m hs
      refine ⟨?_, ?_, ?_, ?_, ?_⟩
      · intro c' hc'
        refine Or.inl ⟨c', ?_, rfl, le_refl _, fun h => h⟩
        rw [cycleOf, hsess] at hc'
        rw [cycleOf, hs]
        exact hc'
      · cases h2 : st.session <;> simp [addLog, h2]
      · intro s0 s' hs0 hs'
        rw [hs] at hs0
        cases hs0
        rw [hsess] at hs'
        cases hs'
        exact statsLe_refl _
      · intro h
        rw [hsess]
        rfl
      · intro h s' hs'
        rw [hsess] at hs'
        cases hs'
        exact pushLog_length_le _ _ (h s hs)

theorem stepOk_scheduleTimer (st : EngineState) (k : String) (a : TAction) (d : Nat) :
    StepOk st (scheduleTimer st k a d) :=
  stepOk_of_session_eq st _ rfl (le_refl _)

theorem stepOk_clearKey (st : EngineState) (k : String) : StepOk st (clearKey st k) :=
  stepOk_of_session_eq st _ (clearKey_session st k) (le_of_eq (clearKey_nextId st k).symm)

theorem stepOk_clearKeys (st : EngineState) (ks : List String) : StepOk st (clearKeys st ks) :=
  stepOk_of_session_eq st _ (clearKeys_session st ks) (le_of_eq (clearKeys_nextId st ks).symm)

theorem stepOk_clearAllTimers (st : EngineState) : StepOk st (clearAllTimers st) :=
  stepOk_of_session_eq st _ rfl (le_refl _)

theorem stepOk_scheduleNextCheckin (st : EngineState) : StepOk st (scheduleNextCheckin st) := by
  cases hs : st.session with
  | none =>
      exact stepOk_congr (show st = scheduleNextCheckin st by simp [scheduleNextCheckin, hs]) (stepOk_refl st)
  | some s =>
      by_cases he : s.enabled
      · have hcomp : scheduleNextCheckin st = scheduleTimer (addLog st "SCHEDULE" ("Next check-in in " ++ toString s.intervalMinutes ++ " min")) "checkin" .checkin (s.intervalMinutes * 60 * 1000) := by
          simp only [scheduleNextCheckin, hs]
          rw [if_pos he]
        exact stepOk_congr hcomp.symm (stepOk_trans (stepOk_addLog st _ _) (stepOk_scheduleTimer _ _ _ _))
      · exact stepOk_congr (show st = scheduleNextCheckin st by simp [scheduleNextCheckin, hs, he]) (stepOk_refl st)

theorem stepOk_smsNotify (st : EngineState) (cs : List Contact) : StepOk st (smsNotify st cs) := by
  induction cs generalizing st with
  | nil => exact stepOk_refl st
  | cons c cs ih =>
      have h1 := stepOk_trans (stepOk_addLog st "SMS_SENT" ("📱 Alert SMS → " ++ c.name ++ " (" ++ c.phone ++ ")")) (stepOk_emit _ "sms_sent")
      have h2 := ih (emit (addLog st "SMS_SENT" ("📱 Alert SMS → " ++ c.name ++ " (" ++ c.phone ++ ")")) "sms_sent")
      exact stepOk_congr (by simp [smsNotify]) (stepOk_trans h1 h2)



/-- StepOk for a pure session replacement that keeps the log and only
moves the cycle/stats in allowed directions. -/
theorem stepOk_session_update (st : EngineState) (s s' : Session)
    (hs : st.session = some s)
    (hcyc : ∀ c', s'.currentCheckin = some c' →
      ∃ c, s.currentCheckin = some c ∧ c.id = c'.id ∧ c.missedCalls ≤ c'.missedCalls ∧
        (c.responded = true → c'.responded = true))
    (hst : StatsLe s.stats s'.stats)
    (hlog : s'.log = s.log) :
    StepOk st { st with session := some s' } where
  desc := by
    intro c' hc'
    have hc2 : s'.currentCheckin = some c' := by simpa [cycleOf] using hc'
    obtain ⟨c, hc, hrest⟩ := hcyc c' hc2
    exact Or.inl ⟨c, by rw [cycleOf, hs]; exact hc, hrest⟩
  nextId_le := le_refl _
  stats := by
    intro s0 s1 h0 h1
    rw [hs] at h0
    cases h0
    simp only at h1
    cases h1
    exact hst
  kept := by intro; rfl
  loglen := by
    intro h s1 hs1
    simp only at hs1
    cases hs1
    rw [hlog]
    exact h s hs

theorem stepOk_startIVR (st : EngineState) (n : Nat) : StepOk st (startIVR st n) := by
  cases hs : st.session with
  | none => exact stepOk_congr (by simp [startIVR, hs]) (stepOk_refl st)
  | some s =>
      cases hc : s.currentCheckin with
      | none => exact stepOk_congr (by simp [startIVR, hs, hc]) (stepOk_refl st)
      | some c =>
          by_cases hr : c.responded
          · exact stepOk_congr (by simp [startIVR, hs, hc, hr]) (stepOk_refl st)
          · have hcomp : startIVR st n = scheduleTimer (emit (addLog { st with session := some { s with currentCheckin := some { c with ivrRound := n } } } "IVR_CALL" ("📞 IVR Call #" ++ toString n ++ " → " ++ s.phone)) "ivr_call") ("ivr" ++ toString n) (.ring n) 15000 := by
              simp [startIVR, hs, hc, hr]
            refine stepOk_congr hcomp.symm (stepOk_trans ?_ (stepOk_trans (stepOk_addLog _ _ _) (stepOk_trans (stepOk_emit _ _) (stepOk_scheduleTimer _ _ _ _))))
            refine stepOk_session_update st s _ hs ?_ (statsLe_refl _) rfl
            intro c' hc'
            cases hc'
            exact ⟨c, hc, rfl, le_refl _, fun h => h⟩

theorem stepOk_graceFire (st : EngineState) : StepOk st (graceFire st) := by
  cases hs : st.session with
  | none => exact stepOk_congr (by simp [graceFire, hs]) (stepOk_refl st)
  | some s =>
      cases hc : s.currentCheckin with
      | none => exact stepOk_congr (by simp [graceFire, hs, hc]) (stepOk_refl st)
      | some c =>
          by_cases hr : c.responded
          · exact stepOk_congr (by simp [graceFire, hs, hc, hr]) (stepOk_refl st)
          · have hcomp : graceFire st = startIVR (emit (addLog { st with session := some { s with stats := { s.stats with missedCheckins := s.stats.missedCheckins + 1, pending := max 0 (s.stats.pending - 1) } } } "GRACE_EXPIRED" "Grace period elapsed — initiating IVR call sequence") "grace_expired") 1 := by
              simp [graceFire, hs, hc, hr]
            refine stepOk_congr hcomp.symm (stepOk_trans ?_ (stepOk_trans (stepOk_addLog _ _ _) (stepOk_trans (stepOk_emit _ _) (stepOk_startIVR _ 1))))
            refine stepOk_session_update st s _ hs ?_ ⟨le_refl _, Nat.le_succ _, le_refl _⟩ rfl
            intro c' hc'
            exact ⟨c', hc', rfl, le_refl _, fun h => h⟩

theorem stepOk_dispatchRescue (st : EngineState) : StepOk st (dispatchRescue st) := by
  cases hs : st.session with
  | none => exact stepOk_congr (by simp [dispatchRescue, hs]) (stepOk_refl st)
  | some s =>
      cases hc : s.currentCheckin with
      | none => exact stepOk_congr (by simp [dispatchRescue, hs, hc]) (stepOk_refl st)
      | some c =>
          have hcomp : dispatchRescue st = scheduleTimer (smsNotify (emit (addLog { { st with session := some { s with stats := { s.stats with rescueDispatches := s.stats.rescueDispatches + 1 }, activeIncident := some { id := st.nextId, userId := s.userId, location := s.lastLocation, phone := s.phone, contacts := s.emergencyContacts, missedCalls := c.missedCalls, dispatchedAt := st.now, status := .DISPATCHED, resolvedAt := none, unit := alphaUnit } } } with nextId := st.nextId + 1 } "RESCUE" ("🚨 RESCUE DISPATCHED → " ++ s.lastLocation.address)) "rescue_dispatched") s.emergencyContacts) "broadcast" .broadcast 10000 := by
            simp [dispatchRescue, hs, hc]
          refine stepOk_congr hcomp.symm (stepOk_trans ?_ (stepOk_trans (stepOk_addLog _ _ _) (stepOk_trans (stepOk_emit _ _) (stepOk_trans (stepOk_smsNotify _ _) (stepOk_scheduleTimer _ _ _ _)))))
          refine ⟨?_, by simp, ?_, ?_, ?_⟩
          · intro c' hc'
            have hc2 : s.currentCheckin = some c' := by simpa [cycleOf] using hc'
            refine Or.inl ⟨c', ?_, rfl, le_refl _, fun h => h⟩
            rw [cycleOf, hs]
            exact hc2
          · intro s0 s1 h0 h1
            rw [hs] at h0
            cases h0
            simp only at h1
            cases h1
            exact ⟨le_refl _, le_refl _, Nat.le_succ _⟩
          · intro; rfl
          · intro h s1 hs1
            simp only at hs1
            cases hs1
            exact h s hs

theorem stepOk_evaluateAndDispatch (st : EngineState) : StepOk st (evaluateAndDispatch st) := by
  cases hs : st.session with
  | none => exact stepOk_congr (by simp [evaluateAndDispatch, hs]) (stepOk_refl st)
  | some s =>
      cases hc : s.currentCheckin with
      | none => exact stepOk_congr (by simp [evaluateAndDispatch, hs, hc]) (stepOk_refl st)
      | some c =>
          by_cases hm : c.missedCalls ≥ 2
          · have hcomp : evaluateAndDispatch st = dispatchRescue (emit (addLog st "EVALUATE" (toString c.missedCalls ++ "/3 calls missed — evaluating rescue threshold")) "evaluate") := by
              simp [evaluateAndDispatch, hs, hc, hm]
            exact stepOk_congr hcomp.symm (stepOk_trans (stepOk_addLog _ _ _) (stepOk_trans (stepOk_emit _ _) (stepOk_dispatchRescue _)))
          · have hcomp : evaluateAndDispatch st = scheduleNextCheckin (emit (addLog (emit (addLog st "EVALUATE" (toString c.missedCalls ++ "/3 calls missed — evaluating rescue threshold")) "evaluate") "RESUME" "Threshold not reached — monitoring resumed normally") "monitor_resumed") := by
              simp [evaluateAndDispatch, hs, hc, hm]
            exact stepOk_congr hcomp.symm (stepOk_trans (stepOk_addLog _ _ _) (stepOk_trans (stepOk_emit _ _) (stepOk_trans (stepOk_addLog _ _ _) (stepOk_trans (stepOk_emit _ _) (stepOk_scheduleNextCheckin _)))))

theorem stepOk_ringFire (st : EngineState) (n : Nat) : StepOk st (ringFire st n) := by
  cases hs : st.session with
  | none => exact stepOk_congr (by simp [ringFire, hs]) (stepOk_refl st)
  | some s =>
      cases hc : s.currentCheckin with
      | none => exact stepOk_congr (by simp [ringFire, hs, hc]) (stepOk_refl st)
      | some c =>
          by_cases hr : c.responded
          · exact stepOk_congr (by simp [ringFire, hs, hc, hr]) (stepOk_refl st)
          · have hupd : StepOk st { st with session := some { s with currentCheckin := some { c with missedCalls := c.missedCalls + 1 } } } := by
              refine stepOk_session_update st s _ hs ?_ (statsLe_refl _) rfl
              intro c' hc'
              cases hc'
              exact ⟨c, hc, rfl, Nat.le_succ _, fun h => h⟩
            by_cases hn : n < 3
            · have hcomp : ringFire st n = emit (addLog (scheduleTimer (emit (addLog { st with session := some { s with currentCheckin := some { c with missedCalls := c.missedCalls + 1 } } } "IVR_MISSED" ("📵 Call #" ++ toString n ++ " not answered (missed: " ++ toString (c.missedCalls + 1) ++ "/3)")) "ivr_missed") ("gap" ++ toString n) (.gap n) 10000) "IVR_GAP" ("Waiting 10s before Call #" ++ toString (n + 1) ++ "…")) "ivr_gap" := by
                simp [ringFire, hs, hc, hr, hn]
              exact stepOk_congr hcomp.symm (stepOk_trans hupd (stepOk_trans (stepOk_addLog _ _ _) (stepOk_trans (stepOk_emit _ _) (stepOk_trans (stepOk_scheduleTimer _ _ _ _) (stepOk_trans (stepOk_addLog _ _ _) (stepOk_emit _ _))))))
            · have hcomp : ringFire st n = evaluateAndDispatch (emit (addLog { st with session := some { s with currentCheckin := some { c with missedCalls := c.missedCalls + 1 } } } "IVR_MISSED" ("📵 Call #" ++ toString n ++ " not answered (missed: " ++ toString (c.missedCalls + 1) ++ "/3)")) "ivr_missed") := by
                simp [ringFire, hs, hc, hr, hn]
              exact stepOk_congr hcomp.symm (stepOk_trans hupd (stepOk_trans (stepOk_addLog _ _ _) (stepOk_trans (stepOk_emit _ _) (stepOk_evaluateAndDispatch _))))

theorem stepOk_triggerCheckin (st : EngineState) : StepOk st (triggerCheckin st) := by
  cases hs : st.session with
  | none => exact stepOk_congr (by simp [triggerCheckin, hs]) (stepOk_refl st)
  | some s =>
      by_cases he : s.enabled
      · have hcomp : triggerCheckin st = scheduleTimer (emit (addLog { st with session := some { s with currentCheckin := some { id := st.nextId, startedAt := st.now, responded := false, respondedAt := none, ivrRound := 0, missedCalls := 0 }, stats := { s.stats with totalCheckins := s.stats.totalCheckins + 1, pending := s.stats.pending + 1 } }, nextId := st.nextId + 1 } "CHECKIN" ("Notification sent — user has " ++ toString s.graceSeconds ++ "s to respond")) "checkin_ping") "grace" .grace (s.graceSeconds * 1000) := by
          simp only [triggerCheckin, hs]
          rw [if_pos he]
        refine stepOk_congr hcomp.symm (stepOk_trans ?_ (stepOk_trans (stepOk_addLog _ _ _) (stepOk_trans (stepOk_emit _ _) (stepOk_scheduleTimer _ _ _ _))))
        refine ⟨?_, by simp, ?_, ?_, ?_⟩
        · intro c' hc'
          have hc2 : c' = { id := st.nextId, startedAt := st.now, responded := false, respondedAt := none, ivrRound := 0, missedCalls := 0 } := by
            have h3 := hc'
            simp [cycleOf] at h3
            exact h3.symm
          exact Or.inr (le_of_eq (by rw [hc2]))
        · intro s0 s1 h0 h1
          rw [hs] at h0
          cases h0
          simp only at h1
          cases h1
          exact ⟨Nat.le_succ _, le_refl _, le_refl _⟩
        · intro; rfl
        · intro h s1 hs1
          simp only at hs1
          cases hs1
          exact h s hs
      · exact stepOk_congr (by simp [triggerCheckin, hs, he]) (stepOk_refl st)

theorem stepOk_broadcastFire (st : EngineState) (tid : Nat) : StepOk st (broadcastFire st tid) := by
  cases hs : st.session with
  | none =>
      refine stepOk_of_session_eq st _ ?_ (by simp [broadcastFire, hs])
      simp [broadcastFire, hs]
  | some s =>
      cases hi : s.activeIncident with
      | none =>
          refine stepOk_of_session_eq st _ ?_ (by simp [broadcastFire, hs, hi])
          simp [broadcastFire, hs, hi]
      | some inc =>
          refine stepOk_of_session_eq st _ ?_ (by simp [broadcastFire, hs, hi])
          simp [broadcastFire, hs, hi]



theorem stepOk_register (st : EngineState) (uid name phone : Option String)
    (contacts : Option (List Contact)) (loc : Option Location) :
    StepOk st (register st uid name phone contacts loc).1 := by
  cases uid with
  | none => exact stepOk_congr (by simp [register]) (stepOk_refl st)
  | some u =>
      by_cases hu : u = ""
      · exact stepOk_congr (by simp [register, hu]) (stepOk_refl st)
      · refine ⟨?_, ?_, ?_, ?_, ?_⟩
        · intro c' hc'
          have : cycleOf (register st (some u) name phone contacts loc).1 = none := by
            simp [register, hu, cycleOf]
          rw [this] at hc'
          cases hc'
        · simp [register, hu]
        · intro s0 s' hs0 hs'
          have hstats : (register st (some u) name phone contacts loc).1.session.map Session.stats = some s0.stats := by
            simp [register, hu, hs0]
          rw [hs'] at hstats
          simp at hstats
          rw [hstats]
          exact statsLe_refl _
        · intro h
          simp [register, hu]
        · intro h s' hs'
          cases hex : st.session with
          | none =>
              have hlog : (register st (some u) name phone contacts loc).1.session.map Session.log = some [] := by
                simp [register, hu, hex]
              rw [hs'] at hlog
              simp at hlog
              simp [hlog]
          | some e =>
              have hlog : (register st (some u) name phone contacts loc).1.session.map Session.log = some e.log := by
                simp [register, hu, hex]
              rw [hs'] at hlog
              simp at hlog
              rw [hlog]
              exact h e hex

theorem stepOk_enable (st : EngineState) (im gs : Option Nat) :
    StepOk st (enable st im gs).1 := by
  cases hs : st.session with
  | none => exact stepOk_congr (by simp [enable, hs]) (stepOk_refl st)
  | some s =>
      have hcomp : (enable st im gs).1 = scheduleNextCheckin (emit (addLog { clearAllTimers st with session := some { s with enabled := true, intervalMinutes := jsOrNat im (nzNat s.intervalMinutes 30), graceSeconds := jsOrNat gs (nzNat s.graceSeconds 60), currentCheckin := none, activeIncident := none } } "ENABLED" ("Monitor ON — interval: " ++ toString (jsOrNat im (nzNat s.intervalMinutes 30)) ++ "m, grace: " ++ toString (jsOrNat gs (nzNat s.graceSeconds 60)) ++ "s")) "monitor_enabled") := by
        simp [enable, hs, jsOrNat, nzNat]
      refine stepOk_congr hcomp.symm (stepOk_trans (stepOk_clearAllTimers st) (stepOk_trans ?_ (stepOk_trans (stepOk_addLog _ _ _) (stepOk_trans (stepOk_emit _ _) (stepOk_scheduleNextCheckin _)))))
      refine stepOk_session_update (clearAllTimers st) s _ (by rw [clearAllTimers_session, hs]) ?_ (statsLe_refl _) rfl
      intro c' hc'
      cases hc'

theorem stepOk_disable (st : EngineState) : StepOk st (disable st).1 := by
  cases hs : st.session with
  | none => exact stepOk_congr (by simp [disable, hs]) (stepOk_refl st)
  | some s =>
      have hcomp : (disable st).1 = emit (addLog { clearAllTimers st with session := some { s with enabled := false, currentCheckin := none, activeIncident := none } } "DISABLED" "Monitor stopped by user") "monitor_disabled" := by
        simp [disable, hs]
      refine stepOk_congr hcomp.symm (stepOk_trans (stepOk_clearAllTimers st) (stepOk_trans ?_ (stepOk_trans (stepOk_addLog _ _ _) (stepOk_emit _ _))))
      refine stepOk_session_update (clearAllTimers st) s _ (by rw [clearAllTimers_session, hs]) ?_ (statsLe_refl _) rfl
      intro c' hc'
      cases hc'

theorem stepOk_respondToCheckin (st : EngineState) (cid : Nat) :
    StepOk st (respondToCheckin st cid).1 := by
  cases hs : st.session with
  | none => exact stepOk_congr (by simp [respondToCheckin, hs]) (stepOk_refl st)
  | some s =>
      cases hc : s.currentCheckin with
      | none => exact stepOk_congr (by simp [respondToCheckin, hs, hc]) (stepOk_refl st)
      | some c =>
          by_cases hr : c.responded
          · exact stepOk_congr (by simp [respondToCheckin, hs, hc, hr]) (stepOk_refl st)
          · by_cases hid : c.id = cid
            · have hrf : c.responded = false := by simpa using hr
              subst hid
              have hcomp := respondToCheckin_success st s c hs hc hrf
              have h1 : (respondToCheckin st c.id).1 = scheduleNextCheckin (emit (addLog (clearKeys { st with session := some { s with currentCheckin := some { c with responded := true, respondedAt := some st.now }, stats := { s.stats with pending := max 0 (s.stats.pending - 1) } } } ["grace", "ivr1", "ivr2", "ivr3", "gap1", "gap2"]) "RESPONDED" "✅ User confirmed safe via notification") "checkin_ok") := by
                rw [hcomp]
              refine stepOk_congr h1.symm (stepOk_trans ?_ (stepOk_trans (stepOk_clearKeys _ _) (stepOk_trans (stepOk_addLog _ _ _) (stepOk_trans (stepOk_emit _ _) (stepOk_scheduleNextCheckin _)))))
              refine stepOk_session_update st s _ hs ?_ (statsLe_refl _) rfl
              intro c' hc'
              cases hc'
              exact ⟨c, hc, rfl, le_refl _, fun h => rfl⟩
            · exact stepOk_congr (by simp [respondToCheckin, hs, hc, hr, hid]) (stepOk_refl st)

theorem stepOk_respondToCall (st : EngineState) (cn : Nat) :
    StepOk st (respondToCall st cn).1 := by
  cases hs : st.session with
  | none => exact stepOk_congr (by simp [respondToCall, hs]) (stepOk_refl st)
  | some s =>
      cases hc : s.currentCheckin with
      | none => exact stepOk_congr (by simp [respondToCall, hs, hc]) (stepOk_refl st)
      | some c =>
          by_cases hr : c.responded
          · exact stepOk_congr (by simp [respondToCall, hs, hc, hr]) (stepOk_refl st)
          · have hrf : c.responded = false := by simpa using hr
            have h1 : (respondToCall st cn).1 = scheduleNextCheckin (emit (addLog { clearKeys st ["ivr" ++ toString cn, "gap" ++ toString cn, "gap1", "gap2"] with session := some { s with currentCheckin := some { c with responded := true, respondedAt := some st.now } } } "IVR_OK" ("✅ User answered IVR Call #" ++ toString cn ++ " — confirmed safe")) "ivr_answered") := by
              simp [respondToCall, hs, hc, hrf]
            refine stepOk_congr h1.symm (stepOk_trans (stepOk_clearKeys st ["ivr" ++ toString cn, "gap" ++ toString cn, "gap1", "gap2"]) (stepOk_trans ?_ (stepOk_trans (stepOk_addLog _ _ _) (stepOk_trans (stepOk_emit _ _) (stepOk_scheduleNextCheckin _)))))
            refine stepOk_session_update (clearKeys st ["ivr" ++ toString cn, "gap" ++ toString cn, "gap1", "gap2"]) s _ (by rw [clearKeys_session, hs]) ?_ (statsLe_refl _) rfl
            intro c' hc'
            cases hc'
            exact ⟨c, hc, rfl, le_refl _, fun h => rfl⟩

theorem stepOk_updateLocation (st : EngineState) (lat lng : Rat) (address : Option String) :
    StepOk st (updateLocation st lat lng address).1 := by
  cases hs : st.session with
  | none => exact stepOk_congr (by simp [updateLocation, hs]) (stepOk_refl st)
  | some s =>
      have h1 : (updateLocation st lat lng address).1 = { st with session := some { s with lastLocation := { lat := lat, lng := lng, address := jsOrStr address s.lastLocation.address, updatedAt := some st.now } } } := by
        simp [updateLocation, hs]
      refine stepOk_congr h1.symm ?_
      refine stepOk_session_update st s _ hs ?_ (statsLe_refl _) rfl
      intro c' hc'
      exact ⟨c', hc', rfl, le_refl _, fun h => h⟩

theorem stepOk_resolveIncident (st : EngineState) (iid : Nat) :
    StepOk st (resolveIncident st iid).1 := by
  cases hs : st.session with
  | none => exact stepOk_congr (by simp [resolveIncident, hs]) (stepOk_refl st)
  | some s =>
      cases hi : s.activeIncident with
      | none => exact stepOk_congr (by simp [resolveIncident, hs, hi]) (stepOk_refl st)
      | some inc =>
          by_cases hid : inc.id = iid
          · have h1 : (resolveIncident st iid).1 = scheduleNextCheckin (emit (addLog { clearKey st "broadcast" with session := some { s with currentCheckin := none, activeIncident := none } } "RESOLVED" "Incident resolved. User confirmed safe. Monitoring resumed.") "incident_resolved") := by
              simp [resolveIncident, hs, hi, hid]
            refine stepOk_congr h1.symm (stepOk_trans (stepOk_clearKey st "broadcast") (stepOk_trans ?_ (stepOk_trans (stepOk_addLog _ _ _) (stepOk_trans (stepOk_emit _ _) (stepOk_scheduleNextCheckin _)))))
            refine stepOk_session_update (clearKey st "broadcast") s _ (by rw [clearKey_session, hs]) ?_ (statsLe_refl _) rfl
            intro c' hc'
            cases hc'
          · exact stepOk_congr (by simp [resolveIncident, hs, hi, hid]) (stepOk_refl st)

/-- Every engine input satisfies the preservation contract. -/
theorem stepOk_applyStep (st : EngineState) (f : Step) : StepOk st (applyStep st f) := by
  cases f with
  | registerU u n p c l => exact stepOk_register st u n p c l
  | enableU im gs => exact stepOk_enable st im gs
  | disableU => exact stepOk_disable st
  | respondCheckin cid => exact stepOk_respondToCheckin st cid
  | respondCall cn => exact stepOk_respondToCall st cn
  | updateLoc lat lng a => exact stepOk_updateLocation st lat lng a
  | resolveU iid => exact stepOk_resolveIncident st iid
  | fireCheckin => exact stepOk_triggerCheckin st
  | fireGrace => exact stepOk_graceFire st
  | fireRing n => exact stepOk_ringFire st n
  | fireGap n => exact stepOk_startIVR st (n + 1)
  | fireBroadcast tid => exact stepOk_broadcastFire st tid

/-- The preservation contract over arbitrary input sequences. -/
theorem stepOk_runSteps (l : List Step) (st : EngineState) : StepOk st (runSteps st l) := by
  induction l generalizing st with
  | nil => exact stepOk_refl st
  | cons f l ih =>
      exact stepOk_trans (stepOk_applyStep st f) (stepOk_congr (by simp [runSteps]) (ih (applyStep st f)))



/-- C8 counterexample: a real, deadline-ordered execution in which the
stale grace timeout of a superseded cycle restarts the IVR sequence of
the current cycle, so `ivrRound` drops from 3 to 1 inside one cycle. -/
theorem C8_counterexample :
    (cycleOf cexD).map Checkin.ivrRound = some 3 ∧
    (cycleOf cexE).map Checkin.ivrRound = some 1 ∧
    (cycleOf cexD).map Checkin.id = (cycleOf cexE).map Checkin.id ∧
    cexE = (fireNext cexD).getD cexD :=
  ⟨rfl, rfl, rfl, rfl⟩

/-- C8 (amended): across any sequence of engine operations and timer
callbacks, a cycle that keeps its identity never loses `missedCalls` and
never reverts `responded`, and the stats counters `totalCheckins`,
`missedCheckins` and `rescueDispatches` never decrease; `ivrRound`,
however, is not monotone (see the stale-grace counterexample). -/
theorem C8_monotonicity (l : List Step) (st : EngineState) :
    (∀ c c', cycleOf st = some c → c.id < st.nextId →
      cycleOf (runSteps st l) = some c' → c'.id = c.id →
      c.missedCalls ≤ c'.missedCalls ∧ (c.responded = true → c'.responded = true))
    ∧ (∀ s s', st.session = some s → (runSteps st l).session = some s' →
      s.stats.totalCheckins ≤ s'.stats.totalCheckins ∧
      s.stats.missedCheckins ≤ s'.stats.missedCheckins ∧
      s.stats.rescueDispatches ≤ s'.stats.rescueDispatches) := by
  have hok := stepOk_runSteps l st
  constructor
  · intro c c' hc hlt hc' hid
    rcases hok.desc c' hc' with ⟨c0, hc0, hid0, hmc, hresp⟩ | hfresh
    · rw [hc] at hc0
      cases hc0
      exact ⟨hmc, hresp⟩
    · rw [hid] at hfresh
      omega
  · intro s s' hs hs'
    exact hok.stats s s' hs hs'

/-- Witness for the amended C8: one grace fire on the fixture state. -/
theorem C8_witness :
    wCheckin.missedCalls ≤ ({ wCheckin with ivrRound := 1 } : Checkin).missedCalls ∧
    (wCheckin.responded = true → ({ wCheckin with ivrRound := 1 } : Checkin).responded = true) :=
  (C8_monotonicity [Step.fireGrace] wState).1 wCheckin { wCheckin with ivrRound := 1 }
    rfl (by decide) (by decide) rfl

theorem pushLog_take (e : LogEntry) (l : List LogEntry) (h : l.length ≤ 100) :
    pushLog e l = (e :: l).take 100 := by
  unfold pushLog
  by_cases hl : (e :: l).length > 100
  · simp only [hl, if_true]
    have h101 : (e :: l).length = 101 := by simp at hl ⊢; omega
    rw [List.dropLast_eq_take, h101]
  · simp only [hl, if_false]
    simp at hl
    rw [List.take_of_length_le]
    simpa using hl

theorem logAfter_general (entries : List LogEntry) (init : List LogEntry)
    (h : init.length ≤ 100) :
    entries.foldl (fun acc e => pushLog e acc) init = (entries.reverse ++ init).take 100 := by
  induction entries generalizing init with
  | nil =>
      simp [List.take_of_length_le h]
  | cons e es ih =>
      rw [List.foldl_cons, ih (pushLog e init) (pushLog_length_le e init h),
        pushLog_take e init h, List.reverse_cons, List.append_assoc, List.singleton_append]
      rw [List.take_append_eq_append_take, List.take_append_eq_append_take, List.take_take]
      congr 1
      rw [min_eq_left (by omega : 100 - es.reverse.length ≤ 100)]



/-- C9: `addLog` prepends and truncates: pushing onto a log within the
cap yields the 100 most recent entries most-recent-first; after at least
100 log-worthy events the stored log is exactly the most recent 100 in
most-recent-first order; and every engine input preserves the 100-entry
cap on the stored log. -/
theorem C9_log_bound :
    (∀ (e : LogEntry) (l : List LogEntry), l.length ≤ 100 →
      pushLog e l = (e :: l).take 100 ∧ (pushLog e l).length ≤ 100)
    ∧ (∀ entries : List LogEntry, 100 ≤ entries.length →
        (logAfter entries).length = 100 ∧ logAfter entries = entries.reverse.take 100)
    ∧ (∀ (st : EngineState) (f : Step), LogLenOk st → LogLenOk (applyStep st f)) := by
  refine ⟨?_, ?_, ?_⟩
  · intro e l h
    exact ⟨pushLog_take e l h, pushLog_length_le e l h⟩
  · intro entries h
    have hgen := logAfter_general entries [] (by simp)
    have heq : logAfter entries = entries.reverse.take 100 := by
      rw [logAfter, hgen, List.append_nil]
    refine ⟨?_, heq⟩
    rw [heq, List.length_take, List.length_reverse]
    omega
  · intro st f h
    exact (stepOk_applyStep st f).loglen h

/-- Witness for C9 at a concrete over-long event sequence. -/
theorem C9_witness :
    pushLog { id := 0, type := "T", message := "m", ts := 0 } [] =
      [{ id := 0, type := "T", message := "m", ts := 0 }] ∧
    (logAfter (List.range 150 |>.map (fun i => { id := i, type := "T", message := "m", ts := i }))).length = 100 :=
  ⟨by
    have h := (C9_log_bound.1 { id := 0, type := "T", message := "m", ts := 0 } [] (by decide)).1
    simpa using h,
   (C9_log_bound.2.1 (List.range 150 |>.map (fun i => { id := i, type := "T", message := "m", ts := i })) (by simp)).1⟩

/-- C10: the prototype backend's `/ok` and `/location` handlers
dereference `users[userId]` without checking registration: for an
unregistered user they throw a `TypeError` instead of returning any
NotFound-style response, while after `/start` the same calls succeed. -/
theorem C10_prototype_handlers_not_total :
    protoOk [] "user001" =
      Except.error (JsError.typeError "Cannot set properties of undefined (setting missedCalls)") ∧
    protoLocation [] "user001" =
      Except.error (JsError.typeError "Cannot read properties of undefined (reading missedCalls)") ∧
    (protoOk (protoStart [] "user001" (some 30)) "user001").isOk = true ∧
    (protoLocation (protoStart [] "user001" (some 30)) "user001").isOk = true :=
  ⟨rfl, rfl, rfl, rfl⟩

theorem earliestTimer_single (lt : LiveTimer) : earliestTimer [lt] = some lt := rfl

@[simp] theorem scheduleTimer_nextT (st : EngineState) (k : String) (a : TAction) (d : Nat) :
    (scheduleTimer st k a d).nextT = st.nextT + 1 := rfl

/-- Firing the only pending timeout: clock jumps to its deadline, the
timeout is retired and its callback runs. -/
theorem fireNext_single (st : EngineState) (lt : LiveTimer) (h : st.live = [lt])
    (hb : ¬ lt.act = .broadcast) :
    fireNext st = some (runTimer { st with now := lt.fireAt, live := [] } lt) := by
  simp only [fireNext, h, earliestTimer_single]
  rw [if_neg hb]
  simp

theorem triggerCheckin_spec (st : EngineState) (s : Session)
    (hs : st.session = some s) (he : s.enabled = true) :
    ∃ l, (triggerCheckin st).session = some { s with currentCheckin := some { id := st.nextId, startedAt := st.now, responded := false, respondedAt := none, ivrRound := 0, missedCalls := 0 }, stats := { s.stats with totalCheckins := s.stats.totalCheckins + 1, pending := s.stats.pending + 1 }, log := l } ∧
    (triggerCheckin st).now = st.now ∧
    (triggerCheckin st).live = st.live ++ [{ tid := st.nextT, act := .grace, fireAt := st.now + s.graceSeconds * 1000 }] ∧
    (triggerCheckin st).nextT = st.nextT + 1 := by
  have hcomp : triggerCheckin st = scheduleTimer (emit (addLog { st with session := some { s with currentCheckin := some { id := st.nextId, startedAt := st.now, responded := false, respondedAt := none, ivrRound := 0, missedCalls := 0 }, stats := { s.stats with totalCheckins := s.stats.totalCheckins + 1, pending := s.stats.pending + 1 } }, nextId := st.nextId + 1 } "CHECKIN" ("Notification sent — user has " ++ toString s.graceSeconds ++ "s to respond")) "checkin_ping") "grace" .grace (s.graceSeconds * 1000) := by
    simp only [triggerCheckin, hs]
    rw [if_pos he]
  rw [hcomp]
  refine ⟨pushLog { id := st.nextId + 1, type := "CHECKIN", message := "Notification sent — user has " ++ toString s.graceSeconds ++ "s to respond", ts := st.now } s.log, ?_, by simp, by simp, by simp⟩
  rw [scheduleTimer_session, emit_session]
  exact addLog_session _ { s with currentCheckin := some { id := st.nextId, startedAt := st.now, responded := false, respondedAt := none, ivrRound := 0, missedCalls := 0 }, stats := { s.stats with totalCheckins := s.stats.totalCheckins + 1, pending := s.stats.pending + 1 } } _ _ rfl

theorem startIVR_spec (st : EngineState) (s : Session) (c : Checkin) (n : Nat)
    (hs : st.session = some s) (hc : s.currentCheckin = some c) (hr : c.responded = false) :
    ∃ l, (startIVR st n).session = some { s with currentCheckin := some { c with ivrRound := n }, log := l } ∧
    (startIVR st n).now = st.now ∧
    (startIVR st n).live = st.live ++ [{ tid := st.nextT, act := .ring n, fireAt := st.now + 15000 }] ∧
    (startIVR st n).nextT = st.nextT + 1 := by
  have hcomp : startIVR st n = scheduleTimer (emit (addLog { st with session := some { s with currentCheckin := some { c with ivrRound := n } } } "IVR_CALL" ("📞 IVR Call #" ++ toString n ++ " → " ++ s.phone)) "ivr_call") ("ivr" ++ toString n) (.ring n) 15000 := by
    simp [startIVR, hs, hc, hr]
  rw [hcomp]
  refine ⟨pushLog { id := st.nextId, type := "IVR_CALL", message := "📞 IVR Call #" ++ toString n ++ " → " ++ s.phone, ts := st.now } s.log, ?_, by simp, by simp, by simp⟩
  rw [scheduleTimer_session, emit_session]
  exact addLog_session _ { s with currentCheckin := some { c with ivrRound := n } } _ _ rfl

theorem graceFire_spec (st : EngineState) (s : Session) (c : Checkin)
    (hs : st.session = some s) (hc : s.currentCheckin = some c) (hr : c.responded = false) :
    ∃ l, (graceFire st).session = some { s with currentCheckin := some { c with ivrRound := 1 }, stats := { s.stats with missedCheckins := s.stats.missedCheckins + 1, pending := max 0 (s.stats.pending - 1) }, log := l } ∧
    (graceFire st).now = st.now ∧
    (graceFire st).live = st.live ++ [{ tid := st.nextT, act := .ring 1, fireAt := st.now + 15000 }] ∧
    (graceFire st).nextT = st.nextT + 1 := by
  have hcomp : graceFire st = startIVR (emit (addLog { st with session := some { s with stats := { s.stats with missedCheckins := s.stats.missedCheckins + 1, pending := max 0 (s.stats.pending - 1) } } } "GRACE_EXPIRED" "Grace period elapsed — initiating IVR call sequence") "grace_expired") 1 := by
    simp [graceFire, hs, hc, hr]
  rw [hcomp]
  have hsess3 : (emit (addLog { st with session := some { s with stats := { s.stats with missedCheckins := s.stats.missedCheckins + 1, pending := max 0 (s.stats.pending - 1) } } } "GRACE_EXPIRED" "Grace period elapsed — initiating IVR call sequence") "grace_expired").session = some { { s with stats := { s.stats with missedCheckins := s.stats.missedCheckins + 1, pending := max 0 (s.stats.pending - 1) } } with log := pushLog { id := st.nextId, type := "GRACE_EXPIRED", message := "Grace period elapsed — initiating IVR call sequence", ts := st.now } s.log } := by
    rw [emit_session]
    exact addLog_session _ { s with stats := { s.stats with missedCheckins := s.stats.missedCheckins + 1, pending := max 0 (s.stats.pending - 1) } } _ _ rfl
  obtain ⟨l, hsess, hnow, hlive, hnextT⟩ := startIVR_spec _ _ c 1 hsess3 hc hr
  refine ⟨l, hsess, ?_, ?_, ?_⟩
  · rw [hnow]; simp
  · rw [hlive]; simp
  · rw [hnextT]; simp

theorem ringFire_spec_lt (st : EngineState) (s : Session) (c : Checkin) (n : Nat)
    (hs : st.session = some s) (hc : s.currentCheckin = some c) (hr : c.responded = false)
    (hn : n < 3) :
    ∃ l, (ringFire st n).session = some { s with currentCheckin := some { c with missedCalls := c.missedCalls + 1 }, log := l } ∧
    (ringFire st n).now = st.now ∧
    (ringFire st n).live = st.live ++ [{ tid := st.nextT, act := .gap n, fireAt := st.now + 10000 }] ∧
    (ringFire st n).nextT = st.nextT + 1 := by
  have hcomp : ringFire st n = emit (addLog (scheduleTimer (emit (addLog { st with session := some { s with currentCheckin := some { c with missedCalls := c.missedCalls + 1 } } } "IVR_MISSED" ("📵 Call #" ++ toString n ++ " not answered (missed: " ++ toString (c.missedCalls + 1) ++ "/3)")) "ivr_missed") ("gap" ++ toString n) (.gap n) 10000) "IVR_GAP" ("Waiting 10s before Call #" ++ toString (n + 1) ++ "…")) "ivr_gap" := by
    simp [ringFire, hs, hc, hr, hn]
  rw [hcomp]
  have hbase : (scheduleTimer (emit (addLog { st with session := some { s with currentCheckin := some { c with missedCalls := c.missedCalls + 1 } } } "IVR_MISSED" ("📵 Call #" ++ toString n ++ " not answered (missed: " ++ toString (c.missedCalls + 1) ++ "/3)")) "ivr_missed") ("gap" ++ toString n) (.gap n) 10000).session = some { { s with currentCheckin := some { c with missedCalls := c.missedCalls + 1 } } with log := pushLog { id := st.nextId, type := "IVR_MISSED", message := "📵 Call #" ++ toString n ++ " not answered (missed: " ++ toString (c.missedCalls + 1) ++ "/3)", ts := st.now } s.log } := by
    rw [scheduleTimer_session, emit_session]
    exact addLog_session _ { s with currentCheckin := some { c with missedCalls := c.missedCalls + 1 } } _ _ rfl
  refine ⟨pushLog { id := st.nextId + 1, type := "IVR_GAP", message := "Waiting 10s before Call #" ++ toString (n + 1) ++ "…", ts := st.now } (pushLog { id := st.nextId, type := "IVR_MISSED", message := "📵 Call #" ++ toString n ++ " not answered (missed: " ++ toString (c.missedCalls + 1) ++ "/3)", ts := st.now } s.log), ?_, by simp, by simp, by simp⟩
  rw [emit_session]
  exact addLog_session _ { { s with currentCheckin := some { c with missedCalls := c.missedCalls + 1 } } with log := pushLog { id := st.nextId, type := "IVR_MISSED", message := "📵 Call #" ++ toString n ++ " not answered (missed: " ++ toString (c.missedCalls + 1) ++ "/3)", ts := st.now } s.log } _ _ hbase



theorem addLog_nextId_some (st : EngineState) (s : Session) (ty m : String)
    (h : st.session = some s) : (addLog st ty m).nextId = st.nextId + 1 := by
  simp [addLog, h]

theorem session_logOnly_emit_addLog (st : EngineState) (s : Session) (ty m ev : String)
    (hs : st.session = some s) :
    ∃ l, (emit (addLog st ty m) ev).session = some { s with log := l } :=
  ⟨_, by rw [emit_session]; exact addLog_session st s ty m hs⟩

theorem ringFire3_dispatch_spec (st : EngineState) (s : Session) (c : Checkin)
    (hs : st.session = some s) (hc : s.currentCheckin = some c) (hr : c.responded = false)
    (hm : 2 ≤ c.missedCalls + 1) :
    ∃ l i, (ringFire st 3).session = some { s with currentCheckin := some { c with missedCalls := c.missedCalls + 1 }, activeIncident := some { id := i, userId := s.userId, location := s.lastLocation, phone := s.phone, contacts := s.emergencyContacts, missedCalls := c.missedCalls + 1, dispatchedAt := st.now, status := .DISPATCHED, resolvedAt := none, unit := alphaUnit }, stats := { s.stats with rescueDispatches := s.stats.rescueDispatches + 1 }, log := l } ∧
    (ringFire st 3).now = st.now ∧
    (ringFire st 3).live = st.live ++ [{ tid := st.nextT, act := .broadcast, fireAt := st.now + 10000 }] ∧
    (ringFire st 3).nextT = st.nextT + 1 := by
  have hcomp : ringFire st 3 = evaluateAndDispatch (emit (addLog { st with session := some { s with currentCheckin := some { c with missedCalls := c.missedCalls + 1 } } } "IVR_MISSED" ("📵 Call #" ++ toString 3 ++ " not answered (missed: " ++ toString (c.missedCalls + 1) ++ "/3)")) "ivr_missed") := by
    simp [ringFire, hs, hc, hr]
  obtain ⟨l3, hsess3⟩ := session_logOnly_emit_addLog { st with session := some { s with currentCheckin := some { c with missedCalls := c.missedCalls + 1 } } } { s with currentCheckin := some { c with missedCalls := c.missedCalls + 1 } } "IVR_MISSED" ("📵 Call #" ++ toString 3 ++ " not answered (missed: " ++ toString (c.missedCalls + 1) ++ "/3)") "ivr_missed" rfl
  have hsess3n := hsess3
  rw [emit_session] at hsess3n
  have hcomp2 : evaluateAndDispatch (emit (addLog { st with session := some { s with currentCheckin := some { c with missedCalls := c.missedCalls + 1 } } } "IVR_MISSED" ("📵 Call #" ++ toString 3 ++ " not answered (missed: " ++ toString (c.missedCalls + 1) ++ "/3)")) "ivr_missed") = dispatchRescue (emit (addLog (emit (addLog { st with session := some { s with currentCheckin := some { c with missedCalls := c.missedCalls + 1 } } } "IVR_MISSED" ("📵 Call #" ++ toString 3 ++ " not answered (missed: " ++ toString (c.missedCalls + 1) ++ "/3)")) "ivr_missed") "EVALUATE" (toString (c.missedCalls + 1) ++ "/3 calls missed — evaluating rescue threshold")) "evaluate") := by
    simp [evaluateAndDispatch, hsess3n, hm]
  obtain ⟨l5, hsess5⟩ := session_logOnly_emit_addLog _ { { s with currentCheckin := some { c with missedCalls := c.missedCalls + 1 } } with log := l3 } "EVALUATE" (toString (c.missedCalls + 1) ++ "/3 calls missed — evaluating rescue threshold") "evaluate" hsess3
  have hsess5n := hsess5
  rw [emit_session] at hsess5n
  have hnid : (addLog (emit (addLog { st with session := some { s with currentCheckin := some { c with missedCalls := c.missedCalls + 1 } } } "IVR_MISSED" ("📵 Call #" ++ toString 3 ++ " not answered (missed: " ++ toString (c.missedCalls + 1) ++ "/3)")) "ivr_missed") "EVALUATE" (toString (c.missedCalls + 1) ++ "/3 calls missed — evaluating rescue threshold")).nextId = st.nextId + 2 := by
    rw [addLog_nextId_some _ { { s with currentCheckin := some { c with missedCalls := c.missedCalls + 1 } } with log := l3 } _ _ (by rw [emit_session]; exact hsess3n), emit_nextId, addLog_nextId_some _ { s with currentCheckin := some { c with missedCalls := c.missedCalls + 1 } } _ _ rfl]
  have hcomp3 : dispatchRescue (emit (addLog (emit (addLog { st with session := some { s with currentCheckin := some { c with missedCalls := c.missedCalls + 1 } } } "IVR_MISSED" ("📵 Call #" ++ toString 3 ++ " not answered (missed: " ++ toString (c.missedCalls + 1) ++ "/3)")) "ivr_missed") "EVALUATE" (toString (c.missedCalls + 1) ++ "/3 calls missed — evaluating rescue threshold")) "evaluate") = scheduleTimer (smsNotify (emit (addLog { (emit (addLog (emit (addLog { st with session := some { s with currentCheckin := some { c with missedCalls := c.missedCalls + 1 } } } "IVR_MISSED" ("📵 Call #" ++ toString 3 ++ " not answered (missed: " ++ toString (c.missedCalls + 1) ++ "/3)")) "ivr_missed") "EVALUATE" (toString (c.missedCalls + 1) ++ "/3 calls missed — evaluating rescue threshold")) "evaluate") with session := some { { { s with currentCheckin := some { c with missedCalls := c.missedCalls + 1 } } with log := l5 } with stats := { s.stats with rescueDispatches := s.stats.rescueDispatches + 1 }, activeIncident := some { id := st.nextId + 2, userId := s.userId, location := s.lastLocation, phone := s.phone, contacts := s.emergencyContacts, missedCalls := c.missedCalls + 1, dispatchedAt := st.now, status := .DISPATCHED, resolvedAt := none, unit := alphaUnit } }, nextId := st.nextId + 3 } "RESCUE" ("🚨 RESCUE DISPATCHED → " ++ s.lastLocation.address)) "rescue_dispatched") s.emergencyContacts) "broadcast" .broadcast 10000 := by
    simp [dispatchRescue, hsess5n, hnid]
  rw [hcomp, hcomp2, hcomp3]
  obtain ⟨l6, hZ⟩ := session_logOnly_emit_addLog { (emit (addLog (emit (addLog { st with session := some { s with currentCheckin := some { c with missedCalls := c.missedCalls + 1 } } } "IVR_MISSED" ("📵 Call #" ++ toString 3 ++ " not answered (missed: " ++ toString (c.missedCalls + 1) ++ "/3)")) "ivr_missed") "EVALUATE" (toString (c.missedCalls + 1) ++ "/3 calls missed — evaluating rescue threshold")) "evaluate") with session := some { { { s with currentCheckin := some { c with missedCalls := c.missedCalls + 1 } } with log := l5 } with stats := { s.stats with rescueDispatches := s.stats.rescueDispatches + 1 }, activeIncident := some { id := st.nextId + 2, userId := s.userId, location := s.lastLocation, phone := s.phone, contacts := s.emergencyContacts, missedCalls := c.missedCalls + 1, dispatchedAt := st.now, status := .DISPATCHED, resolvedAt := none, unit := alphaUnit } }, nextId := st.nextId + 3 } { { { s with currentCheckin := some { c with missedCalls := c.missedCalls + 1 } } with log := l5 } with stats := { s.stats with rescueDispatches := s.stats.rescueDispatches + 1 }, activeIncident := some { id := st.nextId + 2, userId := s.userId, location := s.lastLocation, phone := s.phone, contacts := s.emergencyContacts, missedCalls := c.missedCalls + 1, dispatchedAt := st.now, status := .DISPATCHED, resolvedAt := none, unit := alphaUnit } } "RESCUE" ("🚨 RESCUE DISPATCHED → " ++ s.lastLocation.address) "rescue_dispatched" rfl
  obtain ⟨l7, hfin⟩ := smsNotify_session s.emergencyContacts _ _ hZ
  refine ⟨l7, st.nextId + 2, ?_, by simp, by simp, by simp⟩
  rw [scheduleTimer_session]
  exact hfin




set_option maxHeartbeats 400000 in
set_option profiler true in
/-- C1: from any session and any requested configuration, enabling
monitoring and never responding leads — after the check-in interval, the
effective grace period, three 15-second rings and two 10-second gaps
have elapsed in deadline order — to `missedCalls = 3` (crossing the
threshold of 2 missed calls), a DISPATCHED incident carrying those
missed calls, an incremented `rescueDispatches` counter and a live
10-second broadcast timer. -/
theorem C1_never_respond_escalates (st : EngineState) (s : Session) (im gs : Option Nat)
    (hs : st.session = some s) (hnl : noLeak st) :
    (enable st im gs).2 = none ∧
    ∃ st7 M G, fireN 7 (enable st im gs).1 = some st7 ∧
      intervalOf (enable st im gs).1 = some M ∧
      graceOf (enable st im gs).1 = some G ∧
      (cycleOf st7).map Checkin.missedCalls = some 3 ∧
      (cycleOf st7).map Checkin.ivrRound = some 3 ∧
      (incidentOf st7).map Incident.status = some .DISPATCHED ∧
      (incidentOf st7).map Incident.missedCalls = some 3 ∧
      (statsOf st7).map Stats.rescueDispatches = some (s.stats.rescueDispatches + 1) ∧
      (∃ b, b ∈ st7.live ∧ b.act = .broadcast ∧ b.fireAt = st7.now + 10000) ∧
      st7.now = st.now + M * 60 * 1000 + G * 1000 + 3 * 15000 + 2 * 10000 := by
  obtain ⟨h2, A1, hA1, ⟨l0, hsessA1⟩, hslotsA1, hliveA1, hnowA1, hnextTA1⟩ :=
    enable_parts st s im gs hs
  refine ⟨h2, ?_⟩
  set M := jsOrNat im (nzNat s.intervalMinutes 30) with hM
  set G := jsOrNat gs (nzNat s.graceSeconds 60) with hG
  obtain ⟨st1, hst1⟩ : ∃ x : EngineState, (enable st im gs).1 = x := ⟨_, rfl⟩
  rw [hst1] at hA1 ⊢
  obtain ⟨l1, hsess1⟩ := scheduleNextCheckin_session A1 _ hsessA1
  have hsess1p : st1.session = some { s with enabled := true, intervalMinutes := M, graceSeconds := G, currentCheckin := none, activeIncident := none, log := l1 } := by
    rw [hA1]; exact hsess1
  have hlive1 : st1.live = [{ tid := st.nextT, act := TAction.checkin, fireAt := st.now + M * 60 * 1000 }] := by
    rw [hA1, scheduleNextCheckin_live A1 _ hsessA1 rfl, hliveA1, clearAllTimers_live_nil st hnl, hnowA1, hnextTA1]
    simp
  -- fire 1: the check-in notification
  have hf1 : fireNext st1 = some (triggerCheckin { st1 with now := st.now + M * 60 * 1000, live := [] }) :=
    fireNext_single st1 _ hlive1 (by simp)
  obtain ⟨l2, hsess2, hnow2, hlive2, hnextT2⟩ :=
    triggerCheckin_spec { st1 with now := st.now + M * 60 * 1000, live := [] } _ hsess1p rfl
  obtain ⟨st2, hst2⟩ : ∃ x : EngineState, triggerCheckin { st1 with now := st.now + M * 60 * 1000, live := [] } = x := ⟨_, rfl⟩
  simp only [hst2] at hf1 hsess2 hnow2 hlive2 hnextT2
  -- fire 2: the grace timeout
  have hf2 : fireNext st2 = some (graceFire { st2 with now := st.now + M * 60 * 1000 + G * 1000, live := [] }) :=
    fireNext_single st2 _ hlive2 (by simp)
  obtain ⟨l3, hsess3, hnow3, hlive3, hnextT3⟩ :=
    graceFire_spec { st2 with now := st.now + M * 60 * 1000 + G * 1000, live := [] } _ _ hsess2 rfl rfl
  obtain ⟨st3, hst3⟩ : ∃ x : EngineState, graceFire { st2 with now := st.now + M * 60 * 1000 + G * 1000, live := [] } = x := ⟨_, rfl⟩
  simp only [hst3] at hf2 hsess3 hnow3 hlive3 hnextT3
  -- fire 3: ring 1 goes unanswered
  have hf3 : fireNext st3 = some (ringFire { st3 with now := st.now + M * 60 * 1000 + G * 1000 + 15000, live := [] } 1) :=
    fireNext_single st3 _ hlive3 (by simp)
  obtain ⟨l4, hsess4, hnow4, hlive4, hnextT4⟩ :=
    ringFire_spec_lt { st3 with now := st.now + M * 60 * 1000 + G * 1000 + 15000, live := [] } _ _ 1 hsess3 rfl rfl (by decide)
  obtain ⟨st4, hst4⟩ : ∃ x : EngineState, ringFire { st3 with now := st.now + M * 60 * 1000 + G * 1000 + 15000, live := [] } 1 = x := ⟨_, rfl⟩
  simp only [hst4] at hf3 hsess4 hnow4 hlive4 hnextT4
  -- fire 4: the 10-second gap places call 2
  have hf4 : fireNext st4 = some (startIVR { st4 with now := st.now + M * 60 * 1000 + G * 1000 + 15000 + 10000, live := [] } 2) :=
    fireNext_single st4 _ hlive4 (by simp)
  obtain ⟨l5, hsess5, hnow5, hlive5, hnextT5⟩ :=
    startIVR_spec { st4 with now := st.now + M * 60 * 1000 + G * 1000 + 15000 + 10000, live := [] } _ _ 2 hsess4 rfl rfl
  obtain ⟨st5, hst5⟩ : ∃ x : EngineState, startIVR { st4 with now := st.now + M * 60 * 1000 + G * 1000 + 15000 + 10000, live := [] } 2 = x := ⟨_, rfl⟩
  simp only [hst5] at hf4 hsess5 hnow5 hlive5 hnextT5
  -- fire 5: ring 2 goes unanswered
  have hf5 : fireNext st5 = some (ringFire { st5 with now := st.now + M * 60 * 1000 + G * 1000 + 15000 + 10000 + 15000, live := [] } 2) :=
    fireNext_single st5 _ hlive5 (by simp)
  obtain ⟨l6, hsess6, hnow6, hlive6, hnextT6⟩ :=
    ringFire_spec_lt { st5 with now := st.now + M * 60 * 1000 + G * 1000 + 15000 + 10000 + 15000, live := [] } _ _ 2 hsess5 rfl rfl (by decide)
  obtain ⟨st6, hst6⟩ : ∃ x : EngineState, ringFire { st5 with now := st.now + M * 60 * 1000 + G * 1000 + 15000 + 10000 + 15000, live := [] } 2 = x := ⟨_, rfl⟩
  simp only [hst6] at hf5 hsess6 hnow6 hlive6 hnextT6
  -- fire 6: the second gap places call 3
  have hf6 : fireNext st6 = some (startIVR { st6 with now := st.now + M * 60 * 1000 + G * 1000 + 15000 + 10000 + 15000 + 10000, live := [] } 3) :=
    fireNext_single st6 _ hlive6 (by simp)
  obtain ⟨l7, hsess7, hnow7, hlive7, hnextT7⟩ :=
    startIVR_spec { st6 with now := st.now + M * 60 * 1000 + G * 1000 + 15000 + 10000 + 15000 + 10000, live := [] } _ _ 3 hsess6 rfl rfl
  obtain ⟨st7, hst7⟩ : ∃ x : EngineState, startIVR { st6 with now := st.now + M * 60 * 1000 + G * 1000 + 15000 + 10000 + 15000 + 10000, live := [] } 3 = x := ⟨_, rfl⟩
  simp only [hst7] at hf6 hsess7 hnow7 hlive7 hnextT7
  -- fire 7: ring 3 misses and the rescue dispatches
  have hf7 : fireNext st7 = some (ringFire { st7 with now := st.now + M * 60 * 1000 + G * 1000 + 15000 + 10000 + 15000 + 10000 + 15000, live := [] } 3) :=
    fireNext_single st7 _ hlive7 (by simp)
  obtain ⟨l8, i8, hsess8, hnow8, hlive8, hnextT8⟩ :=
    ringFire3_dispatch_spec { st7 with now := st.now + M * 60 * 1000 + G * 1000 + 15000 + 10000 + 15000 + 10000 + 15000, live := [] } _ _ hsess7 rfl rfl (by simp)
  obtain ⟨st8, hst8⟩ : ∃ x : EngineState, ringFire { st7 with now := st.now + M * 60 * 1000 + G * 1000 + 15000 + 10000 + 15000 + 10000 + 15000, live := [] } 3 = x := ⟨_, rfl⟩
  simp only [hst8] at hf7 hsess8 hnow8 hlive8 hnextT8
  have hchain : fireN 7 st1 = some st8 := by
    show (fireNext st1).bind (fireN 6) = some st8
    rw [hf1]
    show (fireNext st2).bind (fireN 5) = some st8
    rw [hf2]
    show (fireNext st3).bind (fireN 4) = some st8
    rw [hf3]
    show (fireNext st4).bind (fireN 3) = some st8
    rw [hf4]
    show (fireNext st5).bind (fireN 2) = some st8
    rw [hf5]
    show (fireNext st6).bind (fireN 1) = some st8
    rw [hf6]
    show (fireNext st7).bind (fireN 0) = some st8
    rw [hf7]
    rfl
  refine ⟨st8, M, G, hchain, ?_, ?_, ?_, ?_, ?_, ?_, ?_, ?_, ?_⟩
  · rw [hA1, intervalOf_scheduleNextCheckin]
    simp [intervalOf, hsessA1]
  · rw [hA1, graceOf_scheduleNextCheckin]
    simp [graceOf, hsessA1]
  · simp [cycleOf, hsess8]
  · simp [cycleOf, hsess8]
  · simp [incidentOf, hsess8]
  · simp [incidentOf, hsess8]
  · simp [statsOf, hsess8]
  · rw [hlive8]
    refine ⟨_, List.mem_append_right _ (List.mem_singleton_self _), rfl, ?_⟩
    rw [hnow8]
  · refine hnow8.trans ?_
    show st.now + M * 60 * 1000 + G * 1000 + 15000 + 10000 + 15000 + 10000 + 15000 = st.now + M * 60 * 1000 + G * 1000 + 3 * 15000 + 2 * 10000
    omega

/-- Witness for C1 at the concrete fixture, requesting a 1-minute
interval and a `graceSeconds` of 0 (which the JS `||` defaulting turns
into the session's prior 90): the escalation dispatches. -/
theorem C1_witness :
    wState.session = some wSession ∧ noLeak wState ∧
    (enable wState (some 1) (some 0)).2 = none ∧
    ∃ st7, fireN 7 (enable wState (some 1) (some 0)).1 = some st7 ∧
      (cycleOf st7).map Checkin.missedCalls = some 3 ∧
      (incidentOf st7).map Incident.status = some IncidentStatus.DISPATCHED ∧
      (statsOf st7).map Stats.rescueDispatches = some 1 := by
  have hnl : noLeak wState := by intro lt h; simp [wState] at h
  obtain ⟨h1, st7, N, K, hf, hN, hK, hmc, hir, hstt, hmi, hrd, hb, hn⟩ :=
    C1_never_respond_escalates wState wSession (some 1) (some 0) rfl hnl
  exact ⟨rfl, hnl, h1, st7, hf, hmc, hstt, hrd⟩

end SafeZone
